import Mathlib

/-!
Verification of the version-resolution and reflection-decoding core of
UniversalSlashingSimulator, as a shallow embedding of the C++ sources in
`src/Core/Versioning/VersionResolver.cpp`, `src/Engine/CoreTypes/*.cpp`,
`src/Engine/Reflection/PropertyIterator.cpp` and
`src/Engine/Events/ProcessEventDispatcher.cpp`.

Modelling conventions:
* machine integers are modelled as `Nat`/`Int`; the claims never exercise
  integer overflow, and address arithmetic is carried out in `Nat`;
* the C++ `double FortniteVersion` only ever holds two-decimal literals from
  the changelist table and is only compared against two-decimal literals, and
  rounding to `double` is strictly monotone on that grid, so it is embedded
  as the exact number of hundredths (`FortniteVersionH : Nat`);
* reads of foreign process memory (`Memory::Read<T>`, which returns `false`
  on an invalid address and leaves the destination untouched) are modelled by
  explicit heap oracles `Nat → Option _`;
* the engine-name lookups performed through `GetEngineCore()` are modelled as
  string-valued oracles carried in the same heap structure.
-/

namespace USS

/-! ## Version resolution (`src/Core/Versioning/VersionResolver.cpp`) -/

/-- One row of `FVersionResolver::s_CLMappings`: a half-open changelist range
`[CLMin, CLMax)` mapped to an engine version and a Fortnite version (stored
in hundredths). -/
structure FCLMapping where
  CLMin : Nat
  CLMax : Nat
  EngineMajor : Nat
  EngineMinor : Nat
  FortniteVersionH : Nat
deriving DecidableEq, Repr

/-- The `EEngineGeneration` enumeration from `VersionInfo.h`. -/
inductive EEngineGeneration where
  | Unknown
  | UE4_16_19
  | UE4_20_22
  | UE4_23_24
  | UE4_25
  | UE4_26_27
  | UE5_0
  | UE5_1_Plus
deriving DecidableEq, Repr

/-- The fields of `FVersionInfo` written by `MapCLToVersion` and read by
`DetermineGeneration`/`ComputeFeatureFlags`.  (`FortniteSeasonMajor/Minor`
are derived via double truncation and are read by no code under
verification; `EngineVersionPatch` is never assigned.) -/
structure FVersionInfo where
  EngineVersionMajor : Nat
  EngineVersionMinor : Nat
  FortniteVersionH : Nat
  FortniteCL : Nat
deriving DecidableEq, Repr

/-- The feature flags computed by `FVersionResolver::ComputeFeatureFlags`. -/
structure FFeatureFlags where
  bUseFNamePool : Bool
  bUseFField : Bool
  bUseChunkedObjects : Bool
  bUseNewFastArraySerializer : Bool
  bUseTObjectPtr : Bool
  bSupportsSTW : Bool
deriving DecidableEq, Repr

/-- Rows 1 to 34 of the changelist table. -/
def s_CLMappingsPart0 : List FCLMapping := [
  ⟨3541083, 3681159, 4, 16, 120⟩,
  ⟨3681159, 3700114, 4, 16, 150⟩,
  ⟨3700114, 3709086, 4, 16, 172⟩,
  ⟨3709086, 3724489, 4, 16, 180⟩,
  ⟨3724489, 3757339, 4, 16, 182⟩,
  ⟨3757339, 3775276, 4, 16, 190⟩,
  ⟨3775276, 3790078, 4, 16, 191⟩,
  ⟨3790078, 3807424, 4, 19, 110⟩,
  ⟨3807424, 3821117, 4, 19, 111⟩,
  ⟨3821117, 3841827, 4, 19, 200⟩,
  ⟨3841827, 3847564, 4, 19, 210⟩,
  ⟨3847564, 3858292, 4, 19, 220⟩,
  ⟨3858292, 3870737, 4, 19, 230⟩,
  ⟨3870737, 3889387, 4, 19, 240⟩,
  ⟨3889387, 3901517, 4, 19, 241⟩,
  ⟨3901517, 3913157, 4, 19, 242⟩,
  ⟨3913157, 3922182, 4, 19, 250⟩,
  ⟨3922182, 3935073, 4, 20, 300⟩,
  ⟨3935073, 3942182, 4, 20, 310⟩,
  ⟨3942182, 3948073, 4, 20, 320⟩,
  ⟨3948073, 3968866, 4, 20, 330⟩,
  ⟨3968866, 3989614, 4, 20, 340⟩,
  ⟨3989614, 4008490, 4, 20, 350⟩,
  ⟨4008490, 4019403, 4, 20, 351⟩,
  ⟨4019403, 4039451, 4, 20, 352⟩,
  ⟨4039451, 4072250, 4, 20, 360⟩,
  ⟨4072250, 4117433, 4, 20, 400⟩,
  ⟨4117433, 4127312, 4, 20, 410⟩,
  ⟨4127312, 4166199, 4, 20, 420⟩,
  ⟨4166199, 4205896, 4, 20, 430⟩,
  ⟨4205896, 4240749, 4, 20, 440⟩,
  ⟨4240749, 4276938, 4, 20, 450⟩,
  ⟨4276938, 4336496, 4, 21, 500⟩,
  ⟨4336496, 4352937, 4, 21, 501⟩]

/-- Rows 35 to 68 of the changelist table. -/
def s_CLMappingsPart1 : List FCLMapping := [
  ⟨4352937, 4378021, 4, 21, 510⟩,
  ⟨4378021, 4395664, 4, 21, 520⟩,
  ⟨4395664, 4417689, 4, 21, 521⟩,
  ⟨4417689, 4442095, 4, 21, 530⟩,
  ⟨4442095, 4461277, 4, 21, 540⟩,
  ⟨4461277, 4476098, 4, 21, 541⟩,
  ⟨4476098, 4526925, 4, 21, 600⟩,
  ⟨4526925, 4541578, 4, 21, 601⟩,
  ⟨4541578, 4573279, 4, 21, 610⟩,
  ⟨4573279, 4612618, 4, 21, 620⟩,
  ⟨4612618, 4629139, 4, 21, 621⟩,
  ⟨4629139, 4667333, 4, 21, 630⟩,
  ⟨4667333, 4683176, 4, 21, 631⟩,
  ⟨4683176, 4741202, 4, 22, 700⟩,
  ⟨4741202, 4775217, 4, 22, 710⟩,
  ⟨4775217, 4801627, 4, 22, 720⟩,
  ⟨4801627, 4834550, 4, 22, 730⟩,
  ⟨4834550, 4869070, 4, 22, 740⟩,
  ⟨4869070, 4900175, 4, 22, 800⟩,
  ⟨4900175, 4937820, 4, 22, 810⟩,
  ⟨4937820, 4975227, 4, 22, 820⟩,
  ⟨4975227, 5027463, 4, 22, 830⟩,
  ⟨5027463, 5046157, 4, 22, 840⟩,
  ⟨5046157, 5076327, 4, 22, 850⟩,
  ⟨5076327, 5110300, 4, 22, 851⟩,
  ⟨5110300, 5176700, 4, 23, 900⟩,
  ⟨5176700, 5216303, 4, 23, 910⟩,
  ⟨5216303, 5268528, 4, 23, 920⟩,
  ⟨5268528, 5332994, 4, 23, 930⟩,
  ⟨5332994, 5372160, 4, 23, 940⟩,
  ⟨5372160, 5423082, 4, 23, 941⟩,
  ⟨5423082, 5492370, 4, 23, 1000⟩,
  ⟨5492370, 5545976, 4, 23, 1010⟩,
  ⟨5545976, 5633945, 4, 23, 1020⟩]

/-- Rows 69 to 102 of the changelist table. -/
def s_CLMappingsPart2 : List FCLMapping := [
  ⟨5633945, 5704620, 4, 23, 1030⟩,
  ⟨5704620, 5826396, 4, 23, 1031⟩,
  ⟨5826396, 5878874, 4, 23, 1040⟩,
  ⟨5878874, 6058028, 4, 24, 1100⟩,
  ⟨6058028, 6113816, 4, 24, 1101⟩,
  ⟨6113816, 6195466, 4, 24, 1110⟩,
  ⟨6195466, 6316943, 4, 24, 1120⟩,
  ⟨6316943, 6394056, 4, 24, 1121⟩,
  ⟨6394056, 6522018, 4, 24, 1130⟩,
  ⟨6522018, 6639283, 4, 24, 1131⟩,
  ⟨6639283, 6755567, 4, 24, 1140⟩,
  ⟨6755567, 6870595, 4, 24, 1150⟩,
  ⟨6870595, 7037963, 4, 24, 1200⟩,
  ⟨7037963, 7095426, 4, 24, 1210⟩,
  ⟨7095426, 7190182, 4, 24, 1220⟩,
  ⟨7190182, 7251970, 4, 24, 1221⟩,
  ⟨7251970, 7351410, 4, 24, 1230⟩,
  ⟨7351410, 7421103, 4, 24, 1240⟩,
  ⟨7421103, 7499902, 4, 24, 1241⟩,
  ⟨7499902, 7609292, 4, 24, 1250⟩,
  ⟨7609292, 7704104, 4, 24, 1260⟩,
  ⟨7704104, 7834553, 4, 24, 1261⟩,
  ⟨7834553, 8008725, 4, 24, 1300⟩,
  ⟨8008725, 8090709, 4, 24, 1320⟩,
  ⟨8090709, 8154316, 4, 24, 1330⟩,
  ⟨8154316, 8297117, 4, 24, 1340⟩,
  ⟨8297117, 8490514, 4, 24, 1400⟩,
  ⟨8490514, 8606188, 4, 24, 1410⟩,
  ⟨8606188, 8723043, 4, 24, 1420⟩,
  ⟨8723043, 8775446, 4, 24, 1430⟩,
  ⟨8775446, 8870917, 4, 24, 1440⟩,
  ⟨8870917, 9034168, 4, 24, 1450⟩,
  ⟨9034168, 9141206, 4, 24, 1460⟩,
  ⟨9141206, 9449003, 4, 25, 1500⟩]

/-- Rows 103 to 133 of the changelist table. -/
def s_CLMappingsPart3 : List FCLMapping := [
  ⟨9449003, 9562734, 4, 25, 1510⟩,
  ⟨9562734, 9685607, 4, 25, 1520⟩,
  ⟨9685607, 9822221, 4, 25, 1521⟩,
  ⟨9822221, 9926083, 4, 25, 1530⟩,
  ⟨9926083, 10033985, 4, 25, 1540⟩,
  ⟨10033985, 10127509, 4, 25, 1550⟩,
  ⟨10127509, 10466661, 4, 26, 1600⟩,
  ⟨10466661, 10639200, 4, 26, 1610⟩,
  ⟨10639200, 10800459, 4, 26, 1620⟩,
  ⟨10800459, 10951243, 4, 26, 1630⟩,
  ⟨10951243, 11100825, 4, 26, 1640⟩,
  ⟨11100825, 11203632, 4, 26, 1650⟩,
  ⟨11203632, 11556442, 4, 26, 1700⟩,
  ⟨11556442, 11724923, 4, 26, 1710⟩,
  ⟨11724923, 11883027, 4, 26, 1720⟩,
  ⟨11883027, 12058785, 4, 26, 1721⟩,
  ⟨12058785, 12186007, 4, 26, 1730⟩,
  ⟨12186007, 12343911, 4, 26, 1740⟩,
  ⟨12343911, 12493209, 4, 26, 1750⟩,
  ⟨12493209, 12905909, 4, 26, 1800⟩,
  ⟨12905909, 13039508, 4, 26, 1810⟩,
  ⟨13039508, 13206842, 4, 26, 1820⟩,
  ⟨13206842, 13383027, 4, 26, 1821⟩,
  ⟨13383027, 13498980, 4, 26, 1830⟩,
  ⟨13498980, 13692932, 4, 26, 1840⟩,
  ⟨13692932, 14211857, 5, 0, 1900⟩,
  ⟨14211857, 14422223, 5, 0, 1901⟩,
  ⟨14422223, 14550713, 5, 0, 1910⟩,
  ⟨14550713, 14786821, 5, 0, 1920⟩,
  ⟨14786821, 14899505, 5, 0, 1930⟩,
  ⟨14899505, 19215531, 5, 0, 1940⟩]

/-- `FVersionResolver::s_CLMappings`, transcribed row for row (133 rows,
Fortnite 1.2 through 19.40; split into four sub-lists only because very long
list literals elaborate slowly). -/
def s_CLMappings : List FCLMapping :=
  s_CLMappingsPart0 ++ s_CLMappingsPart1 ++ s_CLMappingsPart2 ++ s_CLMappingsPart3

/-- The assignment `MapCLToVersion` performs on a successful range match. -/
def applyCLMapping (CL : Nat) (m : FCLMapping) : FVersionInfo :=
  { EngineVersionMajor := m.EngineMajor
    EngineVersionMinor := m.EngineMinor
    FortniteVersionH := m.FortniteVersionH
    FortniteCL := CL }

/-- `FVersionResolver::MapCLToVersion`: linear scan of `s_CLMappings`, first
row with `CLMin <= CL < CLMax` wins; `none` models `return false`. -/
def MapCLToVersion (CL : Nat) : Option FVersionInfo :=
  (s_CLMappings.find? fun m => decide (m.CLMin <= CL) && decide (CL < m.CLMax)).map
    (applyCLMapping CL)

/-- `FVersionResolver::DetermineGeneration`. -/
def DetermineGeneration (info : FVersionInfo) : EEngineGeneration :=
  if info.EngineVersionMajor = 4 then
    if info.EngineVersionMinor <= 19 then .UE4_16_19
    else if info.EngineVersionMinor <= 22 then .UE4_20_22
    else if info.EngineVersionMinor <= 24 then .UE4_23_24
    else if info.EngineVersionMinor = 25 then .UE4_25
    else .UE4_26_27
  else if info.EngineVersionMajor = 5 then
    if info.EngineVersionMinor = 0 then .UE5_0 else .UE5_1_Plus
  else .Unknown

/-- `FVersionResolver::ComputeFeatureFlags`.  `FN >= 8.30` and `FN <= 20.00`
compare the two-decimal grid values, i.e. hundredths. -/
def ComputeFeatureFlags (info : FVersionInfo) : FFeatureFlags :=
  { bUseFNamePool :=
      (decide (info.EngineVersionMajor = 4) && decide (23 <= info.EngineVersionMinor))
        || decide (5 <= info.EngineVersionMajor)
    bUseFField :=
      (decide (info.EngineVersionMajor = 4) && decide (25 <= info.EngineVersionMinor))
        || decide (5 <= info.EngineVersionMajor)
    bUseChunkedObjects :=
      (decide (info.EngineVersionMajor = 4) && decide (21 <= info.EngineVersionMinor))
        || decide (5 <= info.EngineVersionMajor)
    bUseNewFastArraySerializer := decide (830 <= info.FortniteVersionH)
    bUseTObjectPtr := decide (5 <= info.EngineVersionMajor)
    bSupportsSTW := decide (info.FortniteVersionH <= 2000) }

set_option maxRecDepth 8000 in
/-- The changelist table is sorted with pairwise disjoint half-open ranges:
any earlier row ends no later than any later row begins. -/
theorem s_CLMappings_sorted :
    s_CLMappings.Pairwise fun a b => a.CLMax <= b.CLMin := by decide

/-- In a table whose rows are pairwise ordered and disjoint, the linear scan
returns the (unique) row containing `CL`. -/
theorem find?_eq_of_sorted (L : List FCLMapping)
    (hs : L.Pairwise fun a b => a.CLMax <= b.CLMin)
    (m : FCLMapping) (hm : m ∈ L) (CL : Nat)
    (h1 : m.CLMin <= CL) (h2 : CL < m.CLMax) :
    (L.find? fun x => decide (x.CLMin <= CL) && decide (CL < x.CLMax)) = some m := by
  induction L with
  | nil => cases hm
  | cons a t ih =>
    rcases List.pairwise_cons.mp hs with ⟨ha, ht⟩
    rcases List.mem_cons.mp hm with rfl | hmt
    · exact List.find?_cons_of_pos _ (by simp [h1, h2])
    · have hle : a.CLMax <= m.CLMin := ha m hmt
      have : ¬ CL < a.CLMax := by omega
      rw [List.find?_cons_of_neg _ (by simp [this])]
      exact ih ht hmt

/-- C1: every changelist inside a declared half-open range `[CLMin, CLMax)`
of the table maps (via `MapCLToVersion`) to exactly that row's
`(EngineVersionMajor, EngineVersionMinor, FortniteVersion)` tuple, and every
changelist contained in no declared range fails to map. -/
theorem mapCLToVersion_spec :
    (∀ m ∈ s_CLMappings, ∀ CL : Nat, m.CLMin <= CL → CL < m.CLMax →
        MapCLToVersion CL = some (applyCLMapping CL m)) ∧
    (∀ CL : Nat, (∀ m ∈ s_CLMappings, CL < m.CLMin ∨ m.CLMax <= CL) →
        MapCLToVersion CL = none) := by
  constructor
  · intro m hm CL h1 h2
    unfold MapCLToVersion
    rw [find?_eq_of_sorted s_CLMappings s_CLMappings_sorted m hm CL h1 h2]
    rfl
  · intro CL h
    unfold MapCLToVersion
    rw [List.find?_eq_none.mpr]
    · rfl
    · intro m hm
      have := h m hm
      simp only [Bool.and_eq_true, decide_eq_true_eq]
      omega

set_option maxRecDepth 8000 in
/-- C1 witness: changelist `5150000` lies in the declared range
`[5110300, 5176700)` (Fortnite 9.00, UE 4.23) and maps to that row's tuple;
changelist `3000000` lies in no declared range and fails to map. -/
theorem mapCLToVersion_spec_witness :
    MapCLToVersion 5150000 =
      some (applyCLMapping 5150000 ⟨5110300, 5176700, 4, 23, 900⟩) ∧
    MapCLToVersion 3000000 = none :=
  ⟨mapCLToVersion_spec.1 ⟨5110300, 5176700, 4, 23, 900⟩ (by decide) 5150000
      (by decide) (by decide),
    mapCLToVersion_spec.2 3000000 (by decide)⟩

set_option maxRecDepth 8000 in
/-- C4: changelist `9000000`, resolved through the changelist table, yields a
version classified by `DetermineGeneration` into generation `UE4_23_24` whose
`bUseFNamePool` feature flag is `true`.  (The matching table row is
`[8870917, 9034168) -> (4, 24, 14.50)`.) -/
theorem cl9000000_resolves_gen423_namepool :
    ∃ info, MapCLToVersion 9000000 = some info ∧
      DetermineGeneration info = EEngineGeneration.UE4_23_24 ∧
      (ComputeFeatureFlags info).bUseFNamePool = true :=
  ⟨applyCLMapping 9000000 ⟨8870917, 9034168, 4, 24, 1450⟩, by decide, by decide, by decide⟩

/-! ## Offset resolver (`src/Engine/CoreTypes/OffsetResolver.cpp`) -/

/-- The `EOffsetCategory` enumeration from `OffsetResolver.h`. -/
inductive EOffsetCategory where
  | UObject
  | UField
  | UStruct
  | UClass
  | UFunction
  | UProperty
  | FField
  | FProperty
  | FFieldClass
  | Actor
  | Controller
  | Pawn
  | Inventory
  | Building
  | Mission
deriving DecidableEq, Repr

/-- The `UObject` group of `FOffsetTable`. -/
structure FUObjectOffsets where
  Vtable : Int
  ObjectFlags : Int
  InternalIndex : Int
  Class : Int
  Name : Int
  Outer : Int
deriving DecidableEq, Repr

/-- The `UStruct` group of `FOffsetTable`. -/
structure FUStructOffsets where
  SuperStruct : Int
  Children : Int
  ChildProperties : Int
  PropertiesSize : Int
  MinAlignment : Int
deriving DecidableEq, Repr

/-- The `Controller` group of `FOffsetTable` (only the three fields read by
`GetOffset`). -/
structure FControllerOffsets where
  BuildPreviewMarker : Int
  CurrentBuildableClass : Int
  QuickBars : Int
deriving DecidableEq, Repr

/-- `FOffsetTable`, restricted to the groups that
`FStubOffsetResolver::GetOffset` actually reads (the `UField`, `UProperty`,
`FField`, `FProperty` and `FFieldClass` lookups in `GetOffset` answer from
hard-coded constants, not from the table). -/
structure FOffsetTable where
  UObject : FUObjectOffsets
  UStruct : FUStructOffsets
  Controller : FControllerOffsets
deriving DecidableEq, Repr

/-- The `FOffsetTable()` default constructor: `memset 0` followed by the
baseline UE 4.16 assignments. -/
def FOffsetTable.baseline : FOffsetTable :=
  { UObject := ⟨0x00, 0x08, 0x0C, 0x10, 0x18, 0x20⟩
    UStruct := ⟨0x30, 0x38, 0x00, 0x40, 0x44⟩
    Controller := ⟨0, 0, 0⟩ }

/-- The state of `FStubOffsetResolver` (`m_Offsets`, `m_bResolved`). -/
structure FStubOffsetResolver where
  m_Offsets : FOffsetTable
  m_bResolved : Bool
deriving DecidableEq, Repr

/-- `FStubOffsetResolver::GetOffset(EOffsetCategory, const char*)`: an
`strcmp` chain per category; every path that matches no known field name
falls through to `return -1` (after `USS_WARN("Unknown offset")`, which is
not modelled).  The C++ `const char*` argument is `Option String` so that
the null-pointer guard is representable. -/
def FStubOffsetResolver.GetOffset (r : FStubOffsetResolver)
    (Category : EOffsetCategory) (Name : Option String) : Int :=
  match Name with
  | none => -1
  | some Name =>
    if r.m_bResolved = false then -1
    else
      match Category with
      | .UObject =>
        if Name = "Vtable" then r.m_Offsets.UObject.Vtable
        else if Name = "ObjectFlags" then r.m_Offsets.UObject.ObjectFlags
        else if Name = "InternalIndex" then r.m_Offsets.UObject.InternalIndex
        else if Name = "Class" then r.m_Offsets.UObject.Class
        else if Name = "Name" then r.m_Offsets.UObject.Name
        else if Name = "Outer" then r.m_Offsets.UObject.Outer
        else -1
      | .UField =>
        if Name = "Next" then 0x30
        else -1
      | .UStruct =>
        if Name = "SuperStruct" then r.m_Offsets.UStruct.SuperStruct
        else if Name = "Children" then r.m_Offsets.UStruct.Children
        else if Name = "ChildProperties" then r.m_Offsets.UStruct.ChildProperties
        else if Name = "PropertiesSize" then r.m_Offsets.UStruct.PropertiesSize
        else if Name = "PropertyLink" then 0x50
        else -1
      | .UProperty =>
        if Name = "ArrayDim" then 0x38
        else if Name = "ElementSize" then 0x3C
        else if Name = "PropertyFlags" then 0x40
        else if Name = "Offset_Internal" then 0x4C
        else -1
      | .FField =>
        if Name = "ClassPrivate" then 0x00
        else if Name = "Owner" then 0x08
        else if Name = "Next" then 0x20
        else if Name = "NamePrivate" then 0x28
        else -1
      | .FProperty =>
        if Name = "ArrayDim" then 0x38
        else if Name = "ElementSize" then 0x3C
        else if Name = "PropertyFlags" then 0x40
        else if Name = "Offset_Internal" then 0x4C
        else -1
      | .FFieldClass =>
        if Name = "Name" then 0x00
        else -1
      | .Controller =>
        if Name = "BuildPreviewMarker" then r.m_Offsets.Controller.BuildPreviewMarker
        else if Name = "CurrentBuildableClass" then r.m_Offsets.Controller.CurrentBuildableClass
        else if Name = "QuickBars" then r.m_Offsets.Controller.QuickBars
        else -1
      | _ => -1

/-- `FStubOffsetResolver::GetOffset(const char*, const char*)`: maps a
category name string to `EOffsetCategory` and delegates; an unknown category
string returns `-1` (after `USS_WARN("Unknown category")`). -/
def FStubOffsetResolver.GetOffsetByCategoryName (r : FStubOffsetResolver)
    (CategoryName : Option String) (Name : Option String) : Int :=
  match CategoryName, Name with
  | none, _ => -1
  | _, none => -1
  | some CategoryName, some Name =>
    if CategoryName = "UObject" then r.GetOffset .UObject (some Name)
    else if CategoryName = "UField" then r.GetOffset .UField (some Name)
    else if CategoryName = "UStruct" then r.GetOffset .UStruct (some Name)
    else if CategoryName = "UClass" then r.GetOffset .UClass (some Name)
    else if CategoryName = "UFunction" then r.GetOffset .UFunction (some Name)
    else if CategoryName = "UProperty" then r.GetOffset .UProperty (some Name)
    else if CategoryName = "FField" then r.GetOffset .FField (some Name)
    else if CategoryName = "FProperty" then r.GetOffset .FProperty (some Name)
    else if CategoryName = "FFieldClass" then r.GetOffset .FFieldClass (some Name)
    else if CategoryName = "Controller" then r.GetOffset .Controller (some Name)
    else if CategoryName = "Pawn" then r.GetOffset .Pawn (some Name)
    else if CategoryName = "Actor" then r.GetOffset .Actor (some Name)
    else -1

/-- Field names recognised by `GetOffset` for each category (the string
literals of its `strcmp` chains). -/
def recognizedOffsetNames : EOffsetCategory → List String
  | .UObject => ["Vtable", "ObjectFlags", "InternalIndex", "Class", "Name", "Outer"]
  | .UField => ["Next"]
  | .UStruct => ["SuperStruct", "Children", "ChildProperties", "PropertiesSize", "PropertyLink"]
  | .UProperty => ["ArrayDim", "ElementSize", "PropertyFlags", "Offset_Internal"]
  | .FField => ["ClassPrivate", "Owner", "Next", "NamePrivate"]
  | .FProperty => ["ArrayDim", "ElementSize", "PropertyFlags", "Offset_Internal"]
  | .FFieldClass => ["Name"]
  | .Controller => ["BuildPreviewMarker", "CurrentBuildableClass", "QuickBars"]
  | _ => []

/-- C7 counterexample: on a resolved resolver holding the baseline table, an
unrecognized field name (`UObject`, `"Bogus"`) and an unrecognized category
string (`"Bogus"`) both make the lookup return `-1`, not the claimed `0`
(which is the distinct marker used for unpopulated table offsets, e.g.
`ChildProperties` in the baseline table). -/
theorem getOffset_unknown_returns_neg1_not_0 :
    FStubOffsetResolver.GetOffset ⟨FOffsetTable.baseline, true⟩ .UObject (some "Bogus") = -1 ∧
    FStubOffsetResolver.GetOffsetByCategoryName ⟨FOffsetTable.baseline, true⟩
      (some "Bogus") (some "Class") = -1 ∧
    (-1 : Int) ≠ 0 ∧
    FOffsetTable.baseline.UStruct.ChildProperties = 0 := by
  refine ⟨by decide, by decide, by decide, by decide⟩

/-- C7 amended: for every `(category, field-name)` pair the resolver does not
know — a category whose `switch` arm is missing, or a field name matching no
entry of the category's `strcmp` chain — `GetOffset` returns the failure
sentinel `-1` (not `0`, which marks unpopulated table offsets); likewise the
string-category overload returns `-1` for every unrecognized category
string. -/
theorem getOffset_unknown_spec (r : FStubOffsetResolver) :
    (∀ (cat : EOffsetCategory) (name : String),
        name ∉ recognizedOffsetNames cat →
        r.GetOffset cat (some name) = -1) ∧
    (∀ (catName name : String),
        catName ∉ ["UObject", "UField", "UStruct", "UClass", "UFunction",
          "UProperty", "FField", "FProperty", "FFieldClass", "Controller",
          "Pawn", "Actor"] →
        r.GetOffsetByCategoryName (some catName) (some name) = -1) := by
  constructor
  · intro cat name h
    cases cat <;>
      simp_all [recognizedOffsetNames, FStubOffsetResolver.GetOffset]
  · intro catName name h
    simp_all [FStubOffsetResolver.GetOffsetByCategoryName]

/-- C7 amended witness: the unknown field name `"Bogus"` in category
`UStruct` and the unknown category string `"Gadget"` both resolve to `-1` on
a resolved baseline resolver. -/
theorem getOffset_unknown_spec_witness :
    FStubOffsetResolver.GetOffset ⟨FOffsetTable.baseline, true⟩ .UStruct (some "Bogus") = -1 ∧
    FStubOffsetResolver.GetOffsetByCategoryName ⟨FOffsetTable.baseline, true⟩
      (some "Gadget") (some "Next") = -1 :=
  ⟨(getOffset_unknown_spec ⟨FOffsetTable.baseline, true⟩).1 .UStruct "Bogus" (by decide),
    (getOffset_unknown_spec ⟨FOffsetTable.baseline, true⟩).2 "Gadget" "Next" (by decide)⟩

/-! ## Foreign-memory model

`Memory::Read<T>(addr, out)` returns `false` on an inaccessible address and
leaves `out` untouched; it is modelled by one oracle per access width, with
`none` for a failed read.  Pointers are 8 bytes; the null pointer is `0`. -/

/-- The foreign process memory as read oracles (one per access width used by
the code under verification). -/
structure FMemory where
  readPtr : Nat → Option Nat
  readI32 : Nat → Option Int
  readU16 : Nat → Option Nat
  readI8 : Nat → Option Nat
  readU64 : Nat → Option Nat

/-! ## Object table (`src/Engine/CoreTypes/ObjectArray.cpp`) -/

/-- The state of `FFixedObjectArray` after `Initialize`. -/
structure FFixedObjectArray where
  m_BaseAddress : Nat
  m_ObjectsPtr : Nat
  m_NumElements : Int
  m_MaxElements : Int
  m_ItemSize : Nat
  m_bInitialized : Bool

/-- `FFixedObjectArray::IsValidIndex`. -/
def FFixedObjectArray.IsValidIndex (a : FFixedObjectArray) (Index : Int) : Bool :=
  a.m_bInitialized && decide (0 <= Index) && decide (Index < a.m_NumElements)

/-- `FFixedObjectArray::Num`. -/
def FFixedObjectArray.Num (a : FFixedObjectArray) : Int :=
  a.m_NumElements

/-- `FFixedObjectArray::GetByIndex`: bounds check, then one pointer read at
`m_ObjectsPtr + Index * m_ItemSize`; every failure path returns the null
pointer (`0`), exactly as the C++ returns `nullptr`. -/
def FFixedObjectArray.GetByIndex (H : FMemory) (a : FFixedObjectArray)
    (Index : Int) : Nat :=
  if a.IsValidIndex Index = false then 0
  else
    match H.readPtr (a.m_ObjectsPtr + Index.toNat * a.m_ItemSize) with
    | none => 0
    | some Object => Object

/-- The state of `FChunkedObjectArray` after `Initialize`. -/
structure FChunkedObjectArray where
  m_BaseAddress : Nat
  m_ChunksPtr : Nat
  m_NumElements : Int
  m_MaxElements : Int
  m_NumChunks : Int
  m_ItemSize : Nat
  m_bInitialized : Bool

/-- `FChunkedObjectArray::ElementsPerChunk` (`64 * 1024`). -/
def FChunkedObjectArray.ElementsPerChunk : Nat := 64 * 1024

/-- `FChunkedObjectArray::IsValidIndex`. -/
def FChunkedObjectArray.IsValidIndex (a : FChunkedObjectArray) (Index : Int) : Bool :=
  a.m_bInitialized && decide (0 <= Index) && decide (Index < a.m_NumElements)

/-- `FChunkedObjectArray::Num`. -/
def FChunkedObjectArray.Num (a : FChunkedObjectArray) : Int :=
  a.m_NumElements

/-- The chunk-slot-then-item double read performed by
`FChunkedObjectArray::GetByIndex` once `(ChunkIndex, WithinChunkIndex)` are
computed: follow the chunk pointer stored in slot `ChunkIndex` (a null or
unreadable chunk yields the null pointer), then read the item at
`WithinChunkIndex` inside the chunk. -/
def FChunkedObjectArray.readChunkItem (H : FMemory) (a : FChunkedObjectArray)
    (ChunkIndex WithinChunkIndex : Nat) : Nat :=
  match H.readPtr (a.m_ChunksPtr + ChunkIndex * 8) with
  | none => 0
  | some ChunkPtr =>
    if ChunkPtr = 0 then 0
    else
      match H.readPtr (ChunkPtr + WithinChunkIndex * a.m_ItemSize) with
      | none => 0
      | some Object => Object

/-- `FChunkedObjectArray::GetByIndex`: bounds check, split the index as
`Index / ElementsPerChunk` and `Index % ElementsPerChunk`, then the double
read; every failure path returns the null pointer. -/
def FChunkedObjectArray.GetByIndex (H : FMemory) (a : FChunkedObjectArray)
    (Index : Int) : Nat :=
  if a.IsValidIndex Index = false then 0
  else
    a.readChunkItem H (Index.toNat / FChunkedObjectArray.ElementsPerChunk)
      (Index.toNat % FChunkedObjectArray.ElementsPerChunk)

/-- C3: both object-table variants return the null pointer for every negative
index and every index at or beyond `Num()`; and the chunked variant routes a
valid index `i` to chunk `i / 65536` at within-chunk position `i % 65536`, so
that index `65535` reads chunk `0` position `65535` while index `65536`
reads chunk `1` position `0`. -/
theorem objectArray_bounds_and_chunk_routing :
    (∀ (H : FMemory) (a : FFixedObjectArray) (i : Int),
        i < 0 ∨ a.Num <= i → FFixedObjectArray.GetByIndex H a i = 0) ∧
    (∀ (H : FMemory) (a : FChunkedObjectArray) (i : Int),
        i < 0 ∨ a.Num <= i → FChunkedObjectArray.GetByIndex H a i = 0) ∧
    (∀ (H : FMemory) (a : FChunkedObjectArray) (i : Int),
        a.IsValidIndex i = true →
        FChunkedObjectArray.GetByIndex H a i =
          a.readChunkItem H (i.toNat / 65536) (i.toNat % 65536)) ∧
    (∀ (H : FMemory) (a : FChunkedObjectArray),
        a.IsValidIndex 65535 = true →
        FChunkedObjectArray.GetByIndex H a 65535 = a.readChunkItem H 0 65535) ∧
    (∀ (H : FMemory) (a : FChunkedObjectArray),
        a.IsValidIndex 65536 = true →
        FChunkedObjectArray.GetByIndex H a 65536 = a.readChunkItem H 1 0) := by
  have hfix : ∀ (H : FMemory) (a : FFixedObjectArray) (i : Int),
      i < 0 ∨ a.Num <= i → FFixedObjectArray.GetByIndex H a i = 0 := by
    intro H a i hi
    have : a.IsValidIndex i = false := by
      simp only [FFixedObjectArray.IsValidIndex, FFixedObjectArray.Num] at *
      rcases hi with hi | hi <;> simp [decide_eq_false, not_le.mpr, hi]
    simp [FFixedObjectArray.GetByIndex, this]
  have hchk : ∀ (H : FMemory) (a : FChunkedObjectArray) (i : Int),
      i < 0 ∨ a.Num <= i → FChunkedObjectArray.GetByIndex H a i = 0 := by
    intro H a i hi
    have : a.IsValidIndex i = false := by
      simp only [FChunkedObjectArray.IsValidIndex, FChunkedObjectArray.Num] at *
      rcases hi with hi | hi <;> simp [decide_eq_false, not_le.mpr, hi]
    simp [FChunkedObjectArray.GetByIndex, this]
  have hroute : ∀ (H : FMemory) (a : FChunkedObjectArray) (i : Int),
      a.IsValidIndex i = true →
      FChunkedObjectArray.GetByIndex H a i =
        a.readChunkItem H (i.toNat / 65536) (i.toNat % 65536) := by
    intro H a i hv
    simp [FChunkedObjectArray.GetByIndex, hv, FChunkedObjectArray.ElementsPerChunk]
  exact ⟨hfix, hchk, hroute,
    fun H a hv => hroute H a 65535 hv,
    fun H a hv => hroute H a 65536 hv⟩

/-- A concrete heap for the C3 witness: a chunk-pointer array at address
`1000` with chunk 0 at `5000` and chunk 1 at `9000`; object `77` sits at the
last slot of chunk 0 and object `88` at the first slot of chunk 1
(item size `0x18`). -/
def objectArrayWitnessHeap : FMemory :=
  { readPtr := fun addr =>
      if addr = 1000 then some 5000
      else if addr = 1008 then some 9000
      else if addr = 1577840 then some 77
      else if addr = 9000 then some 88
      else none
    readI32 := fun _ => none
    readU16 := fun _ => none
    readI8 := fun _ => none
    readU64 := fun _ => none }

/-- The chunked array instance for the C3 witness. -/
def objectArrayWitnessChunked : FChunkedObjectArray :=
  { m_BaseAddress := 0, m_ChunksPtr := 1000, m_NumElements := 70000,
    m_MaxElements := 131072, m_NumChunks := 2, m_ItemSize := 0x18,
    m_bInitialized := true }

/-- The fixed array instance for the C3 witness. -/
def objectArrayWitnessFixed : FFixedObjectArray :=
  { m_BaseAddress := 0, m_ObjectsPtr := 2000, m_NumElements := 10,
    m_MaxElements := 16, m_ItemSize := 0x18, m_bInitialized := true }

/-- C3 witness: on the concrete heap, index `-3` (fixed variant) and index
`70000 = Num` (chunked variant) return null, while the boundary indices
`65535` and `65536` read objects `77` and `88` from chunks `0` and `1`. -/
theorem objectArray_bounds_and_chunk_routing_witness :
    FFixedObjectArray.GetByIndex objectArrayWitnessHeap objectArrayWitnessFixed (-3) = 0 ∧
    FChunkedObjectArray.GetByIndex objectArrayWitnessHeap objectArrayWitnessChunked 70000 = 0 ∧
    FChunkedObjectArray.GetByIndex objectArrayWitnessHeap objectArrayWitnessChunked 65535 = 77 ∧
    FChunkedObjectArray.GetByIndex objectArrayWitnessHeap objectArrayWitnessChunked 65536 = 88 :=
  ⟨objectArray_bounds_and_chunk_routing.1 objectArrayWitnessHeap objectArrayWitnessFixed
      (-3) (Or.inl (by decide)),
    objectArray_bounds_and_chunk_routing.2.1 objectArrayWitnessHeap objectArrayWitnessChunked
      70000 (Or.inr (by decide)),
    ((objectArray_bounds_and_chunk_routing.2.2.2.1 objectArrayWitnessHeap
        objectArrayWitnessChunked (by decide)).trans (by decide)),
    ((objectArray_bounds_and_chunk_routing.2.2.2.2 objectArrayWitnessHeap
        objectArrayWitnessChunked (by decide)).trans (by decide))⟩

/-! ## Name pool (`src/Engine/CoreTypes/NamePool.cpp`) -/

/-- Read up to `fuel` code units starting at `addr` with stride `step`,
stopping at a failed read or a null unit — the decode loop shared by the
pre-4.23 `GetName` (which null-terminates). -/
def readUnitsZ (read : Nat → Option Nat) (addr step : Nat) : Nat → List Nat
  | 0 => []
  | fuel + 1 =>
    match read addr with
    | none => []
    | some c => if c = 0 then [] else c :: readUnitsZ read (addr + step) step fuel

/-- Read exactly `len` code units (stopping early on a failed read) — the
decode loop of the 4.23+ `GetName`, which is length-prefixed. -/
def readUnitsLen (read : Nat → Option Nat) (addr step : Nat) : Nat → List Nat
  | 0 => []
  | len + 1 =>
    match read addr with
    | none => []
    | some c => c :: readUnitsLen read (addr + step) step len

/-- `FResolvedName`: the C++ struct carries `(buffer pointer, Length, wide
flag)`; the decoded buffer content is modelled as the list of code units. -/
structure FResolvedName where
  bIsWide : Bool
  Units : List Nat
deriving DecidableEq, Repr

/-- `FResolvedName::ToString`: the wide path narrows each `wchar_t` with
`static_cast<char>` and stops at an embedded null; the ANSI path takes the
decoded bytes as-is. -/
def FResolvedName.ToString (n : FResolvedName) : String :=
  if n.bIsWide then
    String.mk ((n.Units.takeWhile fun u => u ≠ 0).map fun u => Char.ofNat (u % 256))
  else
    String.mk (n.Units.map fun u => Char.ofNat (u % 256))

/-- The state of `FGNamesArray` (pre-4.23 name table) after `Initialize`. -/
structure FGNamesArray where
  m_BaseAddress : Nat
  m_ChunksPtr : Nat
  m_NumElements : Int
  m_bInitialized : Bool

/-- `FGNamesArray::ElementsPerChunk` (`0x4000`). -/
def FGNamesArray.ElementsPerChunk : Nat := 0x4000

/-- `FGNamesArray::NameOffset` (`0x10`, start of the inline name data in an
`FNameEntry`). -/
def FGNamesArray.NameOffset : Nat := 0x10

/-- `FGNamesArray::IsValidIndex`. -/
def FGNamesArray.IsValidIndex (a : FGNamesArray) (Index : Int) : Bool :=
  a.m_bInitialized && decide (0 <= Index) && decide (Index < a.m_NumElements)

/-- `FGNamesArray::GetName`: chunked indirection
(`index / 0x4000`, `index % 0x4000`), a pointer read per level, then the
entry header (`int32` whose LSB is the wide flag) and the null-terminated
inline name data at entry offset `0x10`; `none` models every `return false`
path. -/
def FGNamesArray.GetName (H : FMemory) (a : FGNamesArray)
    (ComparisonIndex : Int) : Option FResolvedName :=
  if a.IsValidIndex ComparisonIndex = false then none
  else
    let ci := ComparisonIndex.toNat
    let ChunkIndex := ci / FGNamesArray.ElementsPerChunk
    let WithinIndex := ci % FGNamesArray.ElementsPerChunk
    (H.readPtr (a.m_ChunksPtr + ChunkIndex * 8)).bind fun ChunkPtr =>
    if ChunkPtr = 0 then none
    else
      (H.readPtr (ChunkPtr + WithinIndex * 8)).bind fun EntryPtr =>
      if EntryPtr = 0 then none
      else
        (H.readI32 EntryPtr).bind fun IndexValue =>
        let wide := decide (IndexValue % 2 = 1)
        let NameDataAddr := EntryPtr + FGNamesArray.NameOffset
        some
          { bIsWide := wide
            Units :=
              if wide then readUnitsZ H.readU16 NameDataAddr 2 1023
              else readUnitsZ H.readI8 NameDataAddr 1 1023 }

/-- `FGNamesArray::GetNameString`: `ToString` of a resolved name, the empty
string when resolution fails. -/
def FGNamesArray.GetNameString (H : FMemory) (a : FGNamesArray)
    (ComparisonIndex : Int) : String :=
  match a.GetName H ComparisonIndex with
  | some Name => Name.ToString
  | none => ""

/-- The state of `FNamePoolImpl` (4.23+ packed name pool) after
`Initialize`. -/
structure FNamePoolImpl where
  m_BaseAddress : Nat
  m_NumBlocks : Int
  m_bInitialized : Bool

/-- `FNamePoolImpl::BlocksOffset` (`0x10`). -/
def FNamePoolImpl.BlocksOffset : Nat := 0x10

/-- `FNamePoolImpl::GetName`: rejects negative indices, splits the index as
`(ComparisonIndex >> 16, (ComparisonIndex & 0xFFFF) * 2)`, follows the block
pointer, reads the 16-bit entry header (LSB wide flag, upper 15 bits
length), rejects length `0` or above `1023`, then reads that many code
units; `none` models every `return false` path. -/
def FNamePoolImpl.GetName (H : FMemory) (p : FNamePoolImpl)
    (ComparisonIndex : Int) : Option FResolvedName :=
  if p.m_bInitialized = false ∨ ComparisonIndex < 0 then none
  else
    let ci := ComparisonIndex.toNat
    let BlockIndex := ci / 65536
    let NameOffset := ci % 65536 * 2
    if p.m_NumBlocks <= (BlockIndex : Int) then none
    else
      (H.readPtr (p.m_BaseAddress + FNamePoolImpl.BlocksOffset + BlockIndex * 8)).bind
        fun BlockPtr =>
      if BlockPtr = 0 then none
      else
        let EntryAddr := BlockPtr + NameOffset
        (H.readU16 EntryAddr).bind fun Header =>
        let wide := decide (Header % 2 = 1)
        let Len := Header / 2
        if Len = 0 ∨ 1023 < Len then none
        else
          let NameDataAddr := EntryAddr + 2
          some
            { bIsWide := wide
              Units :=
                if wide then readUnitsLen H.readU16 NameDataAddr 2 Len
                else readUnitsLen H.readI8 NameDataAddr 1 Len }

/-- `FNamePoolImpl::GetNameString`. -/
def FNamePoolImpl.GetNameString (H : FMemory) (p : FNamePoolImpl)
    (ComparisonIndex : Int) : String :=
  match p.GetName H ComparisonIndex with
  | some Name => Name.ToString
  | none => ""

/-- C5: in both name-table variants, `GetNameString` of comparison index `-1`
is the empty string, and more generally `GetNameString` of any index whose
resolution (`GetName`) fails is the empty string.  (Both functions are total
Lean functions over the heap oracles, so no access can crash.) -/
theorem nameTable_failure_yields_empty_string :
    (∀ (H : FMemory) (a : FGNamesArray), FGNamesArray.GetNameString H a (-1) = "") ∧
    (∀ (H : FMemory) (p : FNamePoolImpl), FNamePoolImpl.GetNameString H p (-1) = "") ∧
    (∀ (H : FMemory) (a : FGNamesArray) (i : Int),
        a.GetName H i = none → FGNamesArray.GetNameString H a i = "") ∧
    (∀ (H : FMemory) (p : FNamePoolImpl) (i : Int),
        p.GetName H i = none → FNamePoolImpl.GetNameString H p i = "") := by
  refine ⟨?_, ?_, ?_, ?_⟩
  · intro H a
    simp [FGNamesArray.GetNameString, FGNamesArray.GetName, FGNamesArray.IsValidIndex]
  · intro H p
    simp [FNamePoolImpl.GetNameString, FNamePoolImpl.GetName]
  · intro H a i h
    simp [FGNamesArray.GetNameString, h]
  · intro H p i h
    simp [FNamePoolImpl.GetNameString, h]

/-- A heap on which every read fails, for the C5 witness. -/
def emptyHeap : FMemory :=
  { readPtr := fun _ => none, readI32 := fun _ => none, readU16 := fun _ => none,
    readI8 := fun _ => none, readU64 := fun _ => none }

/-- C5 witness: index `-1` on initialized tables, and index `5` on a table
whose chunk-pointer read fails, all produce the empty string. -/
theorem nameTable_failure_yields_empty_string_witness :
    FGNamesArray.GetNameString emptyHeap ⟨0, 0, 100, true⟩ (-1) = "" ∧
    FNamePoolImpl.GetNameString emptyHeap ⟨0, 3, true⟩ (-1) = "" ∧
    FGNamesArray.GetNameString emptyHeap ⟨0, 0, 100, true⟩ 5 = "" ∧
    FNamePoolImpl.GetNameString emptyHeap ⟨0, 3, true⟩ 5 = "" :=
  ⟨nameTable_failure_yields_empty_string.1 emptyHeap ⟨0, 0, 100, true⟩,
    nameTable_failure_yields_empty_string.2.1 emptyHeap ⟨0, 3, true⟩,
    nameTable_failure_yields_empty_string.2.2.1 emptyHeap ⟨0, 0, 100, true⟩ 5 rfl,
    nameTable_failure_yields_empty_string.2.2.2 emptyHeap ⟨0, 3, true⟩ 5 rfl⟩

/-! ## Property iterators (`src/Engine/Reflection/PropertyIterator.cpp`)

Both iterator variants walk a null-terminated singly linked field chain
starting at a per-struct head pointer and then recurse into the super-struct;
only the member offsets and the per-field decoding differ.  The engine-core
name lookups (`GetEngineCore().GetObjectName/GetObjectClass/GetNameFromIndex`)
are modelled as oracles. -/

/-- Engine-core lookups used by the iterators. A null result of
`GetObjectClass` is the address `0`. -/
structure FEngineOracle where
  GetObjectName : Nat → String
  GetObjectClass : Nat → Nat
  GetNameFromIndex : Int → String

/-- The `EPropertyType` enumeration from `PropertyIterator.h`. -/
inductive EPropertyType where
  | Unknown
  | ByteProperty
  | Int8Property
  | Int16Property
  | IntProperty
  | Int64Property
  | UInt16Property
  | UInt32Property
  | UInt64Property
  | FloatProperty
  | DoubleProperty
  | BoolProperty
  | StrProperty
  | NameProperty
  | TextProperty
  | ObjectProperty
  | ClassProperty
  | InterfaceProperty
  | WeakObjectProperty
  | LazyObjectProperty
  | SoftObjectProperty
  | SoftClassProperty
  | StructProperty
  | ArrayProperty
  | MapProperty
  | SetProperty
  | DelegateProperty
  | MulticastDelegateProperty
  | MulticastInlineDelegateProperty
  | MulticastSparseDelegateProperty
  | EnumProperty
  | FieldPathProperty
deriving DecidableEq, Repr

/-- `ClassifyProperty`: the fixed class-name-to-kind table (the two C++
variants carry verbatim-identical copies of this chain; it is defined once
here and used by both). -/
def ClassifyProperty (ClassName : String) : EPropertyType :=
  if ClassName = "ByteProperty" then .ByteProperty
  else if ClassName = "Int8Property" then .Int8Property
  else if ClassName = "Int16Property" then .Int16Property
  else if ClassName = "IntProperty" then .IntProperty
  else if ClassName = "Int64Property" then .Int64Property
  else if ClassName = "UInt16Property" then .UInt16Property
  else if ClassName = "UInt32Property" then .UInt32Property
  else if ClassName = "UInt64Property" then .UInt64Property
  else if ClassName = "FloatProperty" then .FloatProperty
  else if ClassName = "DoubleProperty" then .DoubleProperty
  else if ClassName = "BoolProperty" then .BoolProperty
  else if ClassName = "StrProperty" then .StrProperty
  else if ClassName = "NameProperty" then .NameProperty
  else if ClassName = "TextProperty" then .TextProperty
  else if ClassName = "ObjectProperty" then .ObjectProperty
  else if ClassName = "ClassProperty" then .ClassProperty
  else if ClassName = "InterfaceProperty" then .InterfaceProperty
  else if ClassName = "WeakObjectProperty" then .WeakObjectProperty
  else if ClassName = "LazyObjectProperty" then .LazyObjectProperty
  else if ClassName = "SoftObjectProperty" then .SoftObjectProperty
  else if ClassName = "SoftClassProperty" then .SoftClassProperty
  else if ClassName = "StructProperty" then .StructProperty
  else if ClassName = "ArrayProperty" then .ArrayProperty
  else if ClassName = "MapProperty" then .MapProperty
  else if ClassName = "SetProperty" then .SetProperty
  else if ClassName = "DelegateProperty" then .DelegateProperty
  else if ClassName = "MulticastDelegateProperty" then .MulticastDelegateProperty
  else if ClassName = "MulticastInlineDelegateProperty" then .MulticastInlineDelegateProperty
  else if ClassName = "MulticastSparseDelegateProperty" then .MulticastSparseDelegateProperty
  else if ClassName = "EnumProperty" then .EnumProperty
  else if ClassName = "FieldPathProperty" then .FieldPathProperty
  else .Unknown

/-- `FPropertyInfo`, restricted to the fields the iterators assign (`PType`
is the C++ `Type`, renamed because `Type` is reserved in Lean; the
`OwnerStruct`/`InnerStruct`/`InnerProperty`/`PropertyClass` members are never
assigned by either iterator and stay at their defaults). -/
structure FPropertyInfo where
  Name : String
  ClassName : String
  PType : EPropertyType
  Offset : Int
  ElementSize : Int
  ArrayDim : Int
  PropertyFlags : Nat
  PropertyPtr : Nat
deriving DecidableEq, Repr

/-- The member offsets of `FUPropertyIterator` (pre-4.25 variant), as set up
by `Initialize`. -/
structure FUPropertyIterator where
  m_ChildrenOffset : Nat
  m_PropertyLinkOffset : Nat
  m_SuperStructOffset : Nat
  m_UProperty_ArrayDimOffset : Nat
  m_UProperty_ElementSizeOffset : Nat
  m_UProperty_PropertyFlagsOffset : Nat
  m_UProperty_OffsetOffset : Nat
  m_UProperty_NextOffset : Nat
  m_bInitialized : Bool

/-- The member offsets of `FFFieldPropertyIterator` (4.25+ variant). -/
structure FFFieldPropertyIterator where
  m_ChildPropertiesOffset : Nat
  m_SuperStructOffset : Nat
  m_FField_ClassOffset : Nat
  m_FField_OwnerOffset : Nat
  m_FField_NextOffset : Nat
  m_FField_NameOffset : Nat
  m_FProperty_ArrayDimOffset : Nat
  m_FProperty_ElementSizeOffset : Nat
  m_FProperty_PropertyFlagsOffset : Nat
  m_FProperty_OffsetOffset : Nat
  m_FFieldClass_NameOffset : Nat
  m_bInitialized : Bool

/-- The traversal-relevant shape shared by both iterator variants: the
initialization flag and the head / next / super pointer offsets. -/
structure FChainShape where
  initialized : Bool
  headOff : Nat
  nextOff : Nat
  superOff : Nat

/-- The chain shape of the pre-4.25 iterator: head is
`GetPropertyLink` (`m_PropertyLinkOffset`), next is `m_UProperty_NextOffset`. -/
def FUPropertyIterator.shape (it : FUPropertyIterator) : FChainShape :=
  ⟨it.m_bInitialized, it.m_PropertyLinkOffset, it.m_UProperty_NextOffset,
    it.m_SuperStructOffset⟩

/-- The chain shape of the 4.25+ iterator: head is
`GetChildProperties` (`m_ChildPropertiesOffset`), next is `m_FField_NextOffset`. -/
def FFFieldPropertyIterator.shape (it : FFFieldPropertyIterator) : FChainShape :=
  ⟨it.m_bInitialized, it.m_ChildPropertiesOffset, it.m_FField_NextOffset,
    it.m_SuperStructOffset⟩

/-- `GetNextProperty`/`GetNextField`: read the next pointer; a failed read
leaves the local `Next = nullptr`, ending the chain. -/
def chainNext (H : FMemory) (cs : FChainShape) (p : Nat) : Nat :=
  (H.readPtr (p + cs.nextOff)).getD 0

/-- `GetPropertyLink`/`GetChildProperties`: read the chain head pointer; a
failed read yields `nullptr`. -/
def chainHead (H : FMemory) (cs : FChainShape) (sp : Nat) : Nat :=
  (H.readPtr (sp + cs.headOff)).getD 0

/-- `FUPropertyIterator::GetPropertyClassName`: class of the property object
via the engine core, then its object name; empty string on a null class. -/
def FUPropertyIterator.GetPropertyClassName (E : FEngineOracle) (Property : Nat) :
    String :=
  if Property = 0 then ""
  else
    let Class := E.GetObjectClass Property
    if Class = 0 then "" else E.GetObjectName Class

/-- `FUPropertyIterator::ReadPropertyInfo` (always succeeds on a non-null
property; a failed member read leaves the corresponding `FPropertyInfo`
default: `ArrayDim = 1`, everything else `0`). -/
def FUPropertyIterator.ReadPropertyInfo (it : FUPropertyIterator) (H : FMemory)
    (E : FEngineOracle) (Property : Nat) : FPropertyInfo :=
  let cn := FUPropertyIterator.GetPropertyClassName E Property
  { Name := E.GetObjectName Property
    ClassName := cn
    PType := ClassifyProperty cn
    Offset := (H.readI32 (Property + it.m_UProperty_OffsetOffset)).getD 0
    ElementSize := (H.readI32 (Property + it.m_UProperty_ElementSizeOffset)).getD 0
    ArrayDim := (H.readI32 (Property + it.m_UProperty_ArrayDimOffset)).getD 1
    PropertyFlags := (H.readU64 (Property + it.m_UProperty_PropertyFlagsOffset)).getD 0
    PropertyPtr := Property }

/-- `FFFieldPropertyIterator::GetFieldClassName`: follow the field's
`FFieldClass` pointer and resolve that class's `FName`; empty string on any
failure. -/
def FFFieldPropertyIterator.GetFieldClassName (it : FFFieldPropertyIterator)
    (H : FMemory) (E : FEngineOracle) (Field : Nat) : String :=
  if Field = 0 then ""
  else
    match H.readPtr (Field + it.m_FField_ClassOffset) with
    | none => ""
    | some FieldClass =>
      if FieldClass = 0 then ""
      else
        match H.readI32 (FieldClass + it.m_FFieldClass_NameOffset) with
        | none => ""
        | some NameIndex => E.GetNameFromIndex NameIndex

/-- `FFFieldPropertyIterator::ReadPropertyInfo`. -/
def FFFieldPropertyIterator.ReadPropertyInfo (it : FFFieldPropertyIterator)
    (H : FMemory) (E : FEngineOracle) (Field : Nat) : FPropertyInfo :=
  let cn := it.GetFieldClassName H E Field
  { Name :=
      match H.readI32 (Field + it.m_FField_NameOffset) with
      | none => ""
      | some NameIndex => E.GetNameFromIndex NameIndex
    ClassName := cn
    PType := ClassifyProperty cn
    Offset := (H.readI32 (Field + it.m_FProperty_OffsetOffset)).getD 0
    ElementSize := (H.readI32 (Field + it.m_FProperty_ElementSizeOffset)).getD 0
    ArrayDim := (H.readI32 (Field + it.m_FProperty_ArrayDimOffset)).getD 1
    PropertyFlags := (H.readU64 (Field + it.m_FProperty_PropertyFlagsOffset)).getD 0
    PropertyPtr := Field }

/-- The own-chain `while (Property)` loop of `ForEachProperty`, with a
stateful early-stopping callback (modelling the C++ closure).  The C++ loop
has no step bound; `fuel` is only the totality device, and `none` marks fuel
exhaustion (the sufficiency lemmas below show the result is fuel-independent
once `fuel` exceeds the chain length). -/
def ownLoop (H : FMemory) (cs : FChainShape) (readInfo : Nat → FPropertyInfo)
    (f : σ → FPropertyInfo → σ × Bool) : Nat → Nat → σ → Option (σ × Bool)
  | 0, _, _ => none
  | fuel + 1, p, s =>
    if p = 0 then some (s, true)
    else
      let r := f s (readInfo p)
      if r.2 then ownLoop H cs readInfo f fuel (chainNext H cs p) r.1
      else some (r.1, false)

/-- `ForEachProperty` (both variants share this skeleton): guard on the
initialization flag and a null struct, run the own chain, and — when the
callback never stopped and `bIncludeSuper` — recurse into the super-struct
read at `m_SuperStructOffset` (stopping on a failed read or a null super). -/
def forEachChain (H : FMemory) (cs : FChainShape) (readInfo : Nat → FPropertyInfo)
    (f : σ → FPropertyInfo → σ × Bool) :
    Nat → Nat → Bool → σ → Option (σ × Bool)
  | 0, _, _, _ => none
  | fuel + 1, Struct, bIncludeSuper, s =>
    if cs.initialized = false ∨ Struct = 0 then some (s, true)
    else
      match ownLoop H cs readInfo f (fuel + 1) (chainHead H cs Struct) s with
      | none => none
      | some r =>
        if r.2 = false then some r
        else if bIncludeSuper then
          match H.readPtr (Struct + cs.superOff) with
          | none => some r
          | some SuperStruct =>
            if SuperStruct = 0 then some r
            else forEachChain H cs readInfo f fuel SuperStruct true r.1
        else some r

/-- `FUPropertyIterator::ForEachProperty`. -/
def FUPropertyIterator.ForEachProperty (it : FUPropertyIterator) (H : FMemory)
    (E : FEngineOracle) (f : σ → FPropertyInfo → σ × Bool) (fuel : Nat)
    (Struct : Nat) (bIncludeSuper : Bool) (s : σ) : Option (σ × Bool) :=
  forEachChain H it.shape (it.ReadPropertyInfo H E) f fuel Struct bIncludeSuper s

/-- `FFFieldPropertyIterator::ForEachProperty`. -/
def FFFieldPropertyIterator.ForEachProperty (it : FFFieldPropertyIterator)
    (H : FMemory) (E : FEngineOracle) (f : σ → FPropertyInfo → σ × Bool)
    (fuel : Nat) (Struct : Nat) (bIncludeSuper : Bool) (s : σ) : Option (σ × Bool) :=
  forEachChain H it.shape (it.ReadPropertyInfo H E) f fuel Struct bIncludeSuper s

/-- The `FindProperty` callback: remember the first name match and stop. -/
def findCallback (PropertyName : String) :
    Option FPropertyInfo → FPropertyInfo → Option FPropertyInfo × Bool :=
  fun s Info => if Info.Name = PropertyName then (some Info, false) else (s, true)

/-- Extract the `bFound`/`OutInfo` closure state after a find traversal
(`none` also for fuel exhaustion, which has no C++ counterpart). -/
def extractFound : Option (Option FPropertyInfo × Bool) → Option FPropertyInfo
  | none => none
  | some r => r.1

/-- `FUPropertyIterator::FindProperty`: `ForEachProperty` over self and
supers with the stop-at-first-match callback. -/
def FUPropertyIterator.FindProperty (it : FUPropertyIterator) (H : FMemory)
    (E : FEngineOracle) (fuel : Nat) (Struct : Nat) (PropertyName : String) :
    Option FPropertyInfo :=
  extractFound (it.ForEachProperty H E (findCallback PropertyName) fuel Struct true none)

/-- `FFFieldPropertyIterator::FindProperty`. -/
def FFFieldPropertyIterator.FindProperty (it : FFFieldPropertyIterator)
    (H : FMemory) (E : FEngineOracle) (fuel : Nat) (Struct : Nat)
    (PropertyName : String) : Option FPropertyInfo :=
  extractFound (it.ForEachProperty H E (findCallback PropertyName) fuel Struct true none)

/-- The callback collecting every visited descriptor (always continues). -/
def collectCallback :
    List FPropertyInfo → FPropertyInfo → List FPropertyInfo × Bool :=
  fun acc Info => (acc ++ [Info], true)

/-- The own field chain reachable from pointer `p`: finite, every node
non-null, each node followed by `chainNext`, ending at the null pointer. -/
inductive PropChain (H : FMemory) (cs : FChainShape) : Nat → List Nat → Prop where
  | nil : PropChain H cs 0 []
  | cons {p : Nat} {L : List Nat} :
      p ≠ 0 → PropChain H cs (chainNext H cs p) L → PropChain H cs p (p :: L)

/-- The struct together with its super-type chain, each level carrying its
own finite field chain; the chain ends at a null super-type reference or at
an unreadable super pointer. -/
inductive StructLevels (H : FMemory) (cs : FChainShape) :
    Nat → List (Nat × List Nat) → Prop where
  | nil : StructLevels H cs 0 []
  | last {sp : Nat} {L : List Nat} :
      sp ≠ 0 → PropChain H cs (chainHead H cs sp) L →
      H.readPtr (sp + cs.superOff) = none → StructLevels H cs sp [(sp, L)]
  | step {sp : Nat} {L : List Nat} {SuperStruct : Nat} {rest : List (Nat × List Nat)} :
      sp ≠ 0 → PropChain H cs (chainHead H cs sp) L →
      H.readPtr (sp + cs.superOff) = some SuperStruct →
      StructLevels H cs SuperStruct rest → StructLevels H cs sp ((sp, L) :: rest)

/-- Reference traversal of one field chain. -/
def visitChain (readInfo : Nat → FPropertyInfo) (f : σ → FPropertyInfo → σ × Bool) :
    List Nat → σ → σ × Bool
  | [], s => (s, true)
  | p :: L, s =>
    let r := f s (readInfo p)
    if r.2 then visitChain readInfo f L r.1 else (r.1, false)

/-- Reference traversal of a struct level list. -/
def visitLevels (readInfo : Nat → FPropertyInfo) (f : σ → FPropertyInfo → σ × Bool) :
    List (Nat × List Nat) → σ → σ × Bool
  | [], s => (s, true)
  | (_, L) :: rest, s =>
    let r := visitChain readInfo f L s
    if r.2 then visitLevels readInfo f rest r.1 else r

/-- Enough fuel to traverse `levels`: one unit per level, one per field, one
to spare. -/
def levelsBound (levels : List (Nat × List Nat)) : Nat :=
  levels.length + (levels.map fun l => l.2.length).sum + 1

/-- The descriptors yielded over `levels`, level by level, in chain order. -/
def yieldList (readInfo : Nat → FPropertyInfo) (levels : List (Nat × List Nat)) :
    List FPropertyInfo :=
  (levels.map fun l => l.2.map readInfo).flatten

/-- With fuel exceeding the chain length, the fueled own-chain loop computes
the reference traversal of the chain: fuel is immaterial beyond that point. -/
theorem ownLoop_eq_visitChain {σ : Type} (H : FMemory) (cs : FChainShape)
    (readInfo : Nat → FPropertyInfo) (f : σ → FPropertyInfo → σ × Bool)
    {p : Nat} {L : List Nat} (hc : PropChain H cs p L) :
    ∀ fuel : Nat, L.length < fuel → ∀ s : σ,
      ownLoop H cs readInfo f fuel p s = some (visitChain readInfo f L s) := by
  induction hc with
  | nil =>
    intro fuel hf s
    match fuel, hf with
    | fuel + 1, _ => simp [ownLoop, visitChain]
  | @cons p L hp _ ih =>
    intro fuel hf s
    match fuel, hf with
    | fuel + 1, hf =>
      have hlen : L.length < fuel := by
        simp only [List.length_cons] at hf; omega
      by_cases h2 : (f s (readInfo p)).2
      · simp only [ownLoop, if_neg hp, h2, if_true, visitChain]
        exact ih fuel hlen _
      · simp only [ownLoop, if_neg hp, visitChain]
        simp [h2]

/-- A null struct pointer carries no levels. -/
theorem structLevels_zero {H : FMemory} {cs : FChainShape}
    {levels : List (Nat × List Nat)} (h : StructLevels H cs 0 levels) :
    levels = [] := by
  cases h with
  | nil => rfl
  | last hsp _ _ => exact absurd rfl hsp
  | step hsp _ _ _ => exact absurd rfl hsp

/-- With fuel at least `levelsBound levels`, the fueled `ForEachProperty`
skeleton computes the reference traversal of the whole level list. -/
theorem forEachChain_eq_visitLevels {σ : Type} (H : FMemory) (cs : FChainShape)
    (readInfo : Nat → FPropertyInfo) (f : σ → FPropertyInfo → σ × Bool)
    (hinit : cs.initialized = true) {sp : Nat} {levels : List (Nat × List Nat)}
    (hs : StructLevels H cs sp levels) :
    ∀ fuel : Nat, levelsBound levels ≤ fuel → ∀ s : σ,
      forEachChain H cs readInfo f fuel sp true s =
        some (visitLevels readInfo f levels s) := by
  induction hs with
  | nil =>
    intro fuel hf s
    match fuel, hf with
    | fuel + 1, _ => simp [forEachChain, visitLevels]
  | @last sp L hsp hchain hsuper =>
    intro fuel hf s
    match fuel with
    | fuel + 1 =>
      have hguard : ¬(cs.initialized = false ∨ sp = 0) := by simp [hinit, hsp]
      have hlen : L.length < fuel + 1 := by
        simp [levelsBound] at hf; omega
      rw [forEachChain, if_neg hguard,
        ownLoop_eq_visitChain H cs readInfo f hchain (fuel + 1) hlen s]
      by_cases h2 : (visitChain readInfo f L s).2
      · have hr : visitChain readInfo f L s =
            ((visitChain readInfo f L s).1, true) := by rw [← h2]
        rw [hr]
        simp [hsuper, visitLevels, h2]
      · simp [h2, visitLevels]
  | @step sp L SuperStruct rest hsp hchain hsuper hrest ih =>
    intro fuel hf s
    match fuel with
    | fuel + 1 =>
      have hguard : ¬(cs.initialized = false ∨ sp = 0) := by simp [hinit, hsp]
      have hlen : L.length < fuel + 1 := by
        simp [levelsBound] at hf; omega
      rw [forEachChain, if_neg hguard,
        ownLoop_eq_visitChain H cs readInfo f hchain (fuel + 1) hlen s]
      by_cases h2 : (visitChain readInfo f L s).2
      · have hr : visitChain readInfo f L s =
            ((visitChain readInfo f L s).1, true) := by rw [← h2]
        by_cases hz : SuperStruct = 0
        · subst hz
          have hre : rest = [] := structLevels_zero hrest
          subst hre
          rw [hr]
          simp [hsuper, visitLevels, h2]
        · have hbound : levelsBound rest ≤ fuel := by
            simp [levelsBound] at hf ⊢; omega
          rw [hr]
          simp [hsuper, hz, visitLevels, h2, ih fuel hbound]
      · simp [h2, visitLevels]

/-- The collecting callback turns the reference chain traversal into the list
of visited descriptors. -/
theorem visitChain_collect (readInfo : Nat → FPropertyInfo) :
    ∀ (L : List Nat) (acc : List FPropertyInfo),
      visitChain readInfo collectCallback L acc = (acc ++ L.map readInfo, true) := by
  intro L
  induction L with
  | nil => intro acc; simp [visitChain]
  | cons p L ih =>
    intro acc
    simp [visitChain, collectCallback, ih]

/-- The collecting callback over the whole level list yields every field of
every chain once, in order. -/
theorem visitLevels_collect (readInfo : Nat → FPropertyInfo) :
    ∀ (levels : List (Nat × List Nat)) (acc : List FPropertyInfo),
      visitLevels readInfo collectCallback levels acc =
        (acc ++ yieldList readInfo levels, true) := by
  intro levels
  induction levels with
  | nil => intro acc; simp [visitLevels, yieldList]
  | cons l rest ih =>
    intro acc
    cases l with
    | mk sp L =>
      simp [visitLevels, visitChain_collect, ih, yieldList]

/-- `find?` searches an append left to right. -/
theorem find?_append_cases {α : Type} (p : α → Bool) :
    ∀ l₁ l₂ : List α,
      (l₁ ++ l₂).find? p =
        match l₁.find? p with
        | some a => some a
        | none => l₂.find? p := by
  intro l₁ l₂
  induction l₁ with
  | nil => simp
  | cons a t ih =>
    by_cases h : p a
    · simp [List.find?_cons_of_pos, h]
    · simp only [List.cons_append, List.find?_cons_of_neg _ (by simpa using h), ih]

/-- The find callback over one chain returns the first name match of that
chain (and otherwise passes the state through). -/
theorem visitChain_find (readInfo : Nat → FPropertyInfo) (PropertyName : String) :
    ∀ (L : List Nat) (s : Option FPropertyInfo),
      visitChain readInfo (findCallback PropertyName) L s =
        match (L.map readInfo).find? (fun g => decide (g.Name = PropertyName)) with
        | some g => (some g, false)
        | none => (s, true) := by
  intro L
  induction L with
  | nil => intro s; simp [visitChain]
  | cons q L ih =>
    intro s
    by_cases h : (readInfo q).Name = PropertyName
    · simp [visitChain, findCallback, h, List.find?_cons_of_pos]
    · simp only [visitChain, findCallback, List.map_cons]
      rw [List.find?_cons_of_neg _ (by simpa using h)]
      simp [h, ih]

/-- The find callback over the level list returns the first name match of the
whole yielded sequence. -/
theorem visitLevels_find (readInfo : Nat → FPropertyInfo) (PropertyName : String) :
    ∀ (levels : List (Nat × List Nat)) (s : Option FPropertyInfo),
      visitLevels readInfo (findCallback PropertyName) levels s =
        match (yieldList readInfo levels).find?
            (fun g => decide (g.Name = PropertyName)) with
        | some g => (some g, false)
        | none => (s, true) := by
  intro levels
  induction levels with
  | nil => intro s; simp [visitLevels, yieldList]
  | cons l rest ih =>
    intro s
    cases l with
    | mk sp L =>
      rw [visitLevels, visitChain_find]
      have happ : yieldList readInfo ((sp, L) :: rest) =
          L.map readInfo ++ yieldList readInfo rest := by
        simp [yieldList]
      rw [happ, find?_append_cases]
      cases hfind : (L.map readInfo).find? (fun g => decide (g.Name = PropertyName)) with
      | some g => simp [hfind]
      | none => simp [hfind, ih]

/-- In a list of descriptors with pairwise distinct names, searching for the
name of a member finds that member. -/
theorem find?_name_eq_self_of_nodup :
    ∀ (ys : List FPropertyInfo), (ys.map fun g => g.Name).Nodup →
      ∀ Info ∈ ys, ys.find? (fun g => decide (g.Name = Info.Name)) = some Info := by
  intro ys
  induction ys with
  | nil => intro _ Info h; cases h
  | cons g rest ih =>
    intro hnd Info hmem
    rw [List.map_cons] at hnd
    rcases List.nodup_cons.mp hnd with ⟨hnotin, hndrest⟩
    rcases List.mem_cons.mp hmem with rfl | hmemrest
    · simp [List.find?_cons_of_pos]
    · have hne : ¬ g.Name = Info.Name := by
        intro he
        exact hnotin (he ▸ List.mem_map_of_mem (fun g : FPropertyInfo => g.Name) hmemrest)
      rw [List.find?_cons_of_neg _ (by simpa using hne)]
      exact ih hndrest Info hmemrest

/-- `extractFound` after a sufficiently fueled find traversal is the first
yielded descriptor bearing the requested name. -/
theorem findChain_eq_find? (H : FMemory) (cs : FChainShape)
    (readInfo : Nat → FPropertyInfo) (hinit : cs.initialized = true)
    {sp : Nat} {levels : List (Nat × List Nat)} (hs : StructLevels H cs sp levels)
    (fuel : Nat) (hf : levelsBound levels ≤ fuel) (PropertyName : String) :
    extractFound (forEachChain H cs readInfo (findCallback PropertyName) fuel sp true none) =
      (yieldList readInfo levels).find? fun g => decide (g.Name = PropertyName) := by
  rw [forEachChain_eq_visitLevels H cs readInfo (findCallback PropertyName)
      hinit hs fuel hf none, visitLevels_find]
  cases hfind : (yieldList readInfo levels).find? fun g => decide (g.Name = PropertyName) <;>
    simp [hfind, extractFound]

/-- A linear heap family with no bounded traversal: struct `2` has its field
chain head at offset `0`, its super pointer at offset `8` (reading null), and
`n` chained field records at addresses `8*k + 8` (`k = n` down to `1`), each
holding its next pointer at offset `0`. -/
def capHeap (n : Nat) : FMemory :=
  { readPtr := fun a =>
      if a = 2 then some (8 * n + 8)
      else if 24 ≤ a ∧ a % 8 = 0 then some (a - 8)
      else some 0
    readI32 := fun _ => none
    readU16 := fun _ => none
    readI8 := fun _ => none
    readU64 := fun _ => none }

/-- The chain shape shared by the two concrete iterator instances below. -/
def capShape : FChainShape := ⟨true, 0, 0, 8⟩

/-- A concrete pre-4.25 iterator whose member offsets realise `capShape`. -/
def capIterU : FUPropertyIterator := ⟨0, 0, 8, 0, 0, 0, 0, 0, true⟩

/-- A concrete 4.25+ iterator whose member offsets realise `capShape`. -/
def capIterF : FFFieldPropertyIterator := ⟨0, 8, 0, 0, 0, 0, 0, 0, 0, 0, 0, true⟩

/-- Constant engine oracles for the concrete heaps: every object is named
`"F"` and has no class. -/
def capOracle : FEngineOracle :=
  { GetObjectName := fun _ => "F"
    GetObjectClass := fun _ => 0
    GetNameFromIndex := fun _ => "" }

/-- The field addresses of `capHeap`, highest first. -/
def capChainList : Nat → List Nat
  | 0 => []
  | k + 1 => (8 * (k + 1) + 8) :: capChainList k

/-- `capChainList k` has `k` entries. -/
theorem capChainList_length : ∀ k : Nat, (capChainList k).length = k := by
  intro k
  induction k with
  | zero => rfl
  | succ k ih => simp [capChainList, ih]

/-- On `capHeap n` the pointer `8*(k+1) + 8` heads the field chain
`capChainList (k+1)`. -/
theorem capChain_prop (n : Nat) :
    ∀ k : Nat, PropChain (capHeap n) capShape (8 * (k + 1) + 8) (capChainList (k + 1)) := by
  intro k
  induction k with
  | zero =>
    refine PropChain.cons (by decide) ?_
    have h : chainNext (capHeap n) capShape (8 * (0 + 1) + 8) = 0 := rfl
    rw [h]
    exact PropChain.nil
  | succ k ih =>
    refine PropChain.cons (by omega) ?_
    have h : chainNext (capHeap n) capShape (8 * (k + 1 + 1) + 8) = 8 * (k + 1) + 8 := by
      simp only [chainNext, capHeap, capShape]
      rw [if_neg (by omega), if_pos (by omega)]
      simp
      omega
    rw [h]
    exact ih

/-- On `capHeap (n+1)` the struct `2` carries exactly one level holding the
`n+1` fields of `capChainList (n+1)`. -/
theorem capLevels (n : Nat) :
    StructLevels (capHeap (n + 1)) capShape 2 [(2, capChainList (n + 1))] := by
  refine StructLevels.step (by decide) ?_ ?_ StructLevels.nil
  · have hh : chainHead (capHeap (n + 1)) capShape 2 = 8 * (n + 1) + 8 := rfl
    rw [hh]
    exact capChain_prop (n + 1) n
  · rfl

/-- C9: with `includeSuper = true`, both iterator variants terminate on every
struct whose own field chains and super chain are finite and null-terminated,
visiting every field of every chain exactly once in chain order (the fueled
embedding becomes fuel-independent as soon as the fuel exceeds
`levelsBound`); and neither variant imposes a defensive recursion-depth cap:
for every `n` there is a heap on which the traversal visits more than `n`
fields. -/
theorem forEachProperty_terminates_visits_all :
    (∀ (H : FMemory) (E : FEngineOracle) (it : FUPropertyIterator) (Struct : Nat)
        (levels : List (Nat × List Nat)) (fuel : Nat),
        it.m_bInitialized = true → StructLevels H it.shape Struct levels →
        levelsBound levels ≤ fuel →
        it.ForEachProperty H E collectCallback fuel Struct true [] =
          some (yieldList (it.ReadPropertyInfo H E) levels, true)) ∧
    (∀ (H : FMemory) (E : FEngineOracle) (it : FFFieldPropertyIterator) (Struct : Nat)
        (levels : List (Nat × List Nat)) (fuel : Nat),
        it.m_bInitialized = true → StructLevels H it.shape Struct levels →
        levelsBound levels ≤ fuel →
        it.ForEachProperty H E collectCallback fuel Struct true [] =
          some (yieldList (it.ReadPropertyInfo H E) levels, true)) ∧
    (∀ n : Nat, ∃ (H : FMemory) (fuel : Nat) (visited : List FPropertyInfo),
        capIterU.ForEachProperty H capOracle collectCallback fuel 2 true [] =
          some (visited, true) ∧ n < visited.length) ∧
    (∀ n : Nat, ∃ (H : FMemory) (fuel : Nat) (visited : List FPropertyInfo),
        capIterF.ForEachProperty H capOracle collectCallback fuel 2 true [] =
          some (visited, true) ∧ n < visited.length) := by
  have huncap : ∀ (cs : FChainShape) (readInfo : Nat → FPropertyInfo) (n : Nat),
      cs = capShape →
      forEachChain (capHeap (n + 1)) cs readInfo collectCallback (n + 3) 2 true [] =
        some (yieldList readInfo [(2, capChainList (n + 1))], true) := by
    intro cs readInfo n hcs
    subst hcs
    rw [forEachChain_eq_visitLevels (capHeap (n + 1)) capShape readInfo collectCallback
        rfl (capLevels n) (n + 3) (by simp [levelsBound, capChainList_length]; omega) [],
      visitLevels_collect]
    simp
  have hyield_len : ∀ (readInfo : Nat → FPropertyInfo) (n : Nat),
      (yieldList readInfo [(2, capChainList (n + 1))]).length = n + 1 := by
    intro readInfo n
    simp [yieldList, capChainList_length]
  refine ⟨?_, ?_, ?_, ?_⟩
  · intro H E it Struct levels fuel hinit hs hf
    rw [FUPropertyIterator.ForEachProperty,
      forEachChain_eq_visitLevels H it.shape (it.ReadPropertyInfo H E) collectCallback
        hinit hs fuel hf [], visitLevels_collect]
    simp
  · intro H E it Struct levels fuel hinit hs hf
    rw [FFFieldPropertyIterator.ForEachProperty,
      forEachChain_eq_visitLevels H it.shape (it.ReadPropertyInfo H E) collectCallback
        hinit hs fuel hf [], visitLevels_collect]
    simp
  · intro n
    exact ⟨capHeap (n + 1), n + 3,
      yieldList (capIterU.ReadPropertyInfo (capHeap (n + 1)) capOracle) [(2, capChainList (n + 1))],
      huncap capIterU.shape _ n rfl,
      by rw [hyield_len]; omega⟩
  · intro n
    exact ⟨capHeap (n + 1), n + 3,
      yieldList (capIterF.ReadPropertyInfo (capHeap (n + 1)) capOracle) [(2, capChainList (n + 1))],
      huncap capIterF.shape _ n rfl,
      by rw [hyield_len]; omega⟩

/-- C9 witness: on the concrete two-field heap `capHeap 2`, the pre-4.25
iterator with fuel `5` visits exactly the two chained fields. -/
theorem forEachProperty_terminates_visits_all_witness :
    capIterU.ForEachProperty (capHeap 2) capOracle collectCallback 5 2 true [] =
      some (yieldList (capIterU.ReadPropertyInfo (capHeap 2) capOracle)
        [(2, capChainList 2)], true) :=
  forEachProperty_terminates_visits_all.1 (capHeap 2) capOracle capIterU 2
    [(2, capChainList 2)] 5 rfl (capLevels 1) (by decide)

/-- C6 (amended): in both iterator variants, for every descriptor `Info`
yielded by `ForEachProperty` with `includeSuper = true`, `FindProperty` on
`Info.Name` succeeds and returns the *first* yielded descriptor bearing that
name; consequently the exact round trip `FindProperty (type, Info.Name) =
Info` holds whenever the yielded field names are pairwise distinct. -/
theorem findProperty_roundtrip :
    (∀ (H : FMemory) (E : FEngineOracle) (it : FUPropertyIterator) (Struct : Nat)
        (levels : List (Nat × List Nat)) (fuel : Nat),
        it.m_bInitialized = true → StructLevels H it.shape Struct levels →
        levelsBound levels ≤ fuel →
        (∀ Info ∈ yieldList (it.ReadPropertyInfo H E) levels,
          it.FindProperty H E fuel Struct Info.Name =
            (yieldList (it.ReadPropertyInfo H E) levels).find?
              (fun g => decide (g.Name = Info.Name))) ∧
        (((yieldList (it.ReadPropertyInfo H E) levels).map fun g => g.Name).Nodup →
          ∀ Info ∈ yieldList (it.ReadPropertyInfo H E) levels,
            it.FindProperty H E fuel Struct Info.Name = some Info)) ∧
    (∀ (H : FMemory) (E : FEngineOracle) (it : FFFieldPropertyIterator) (Struct : Nat)
        (levels : List (Nat × List Nat)) (fuel : Nat),
        it.m_bInitialized = true → StructLevels H it.shape Struct levels →
        levelsBound levels ≤ fuel →
        (∀ Info ∈ yieldList (it.ReadPropertyInfo H E) levels,
          it.FindProperty H E fuel Struct Info.Name =
            (yieldList (it.ReadPropertyInfo H E) levels).find?
              (fun g => decide (g.Name = Info.Name))) ∧
        (((yieldList (it.ReadPropertyInfo H E) levels).map fun g => g.Name).Nodup →
          ∀ Info ∈ yieldList (it.ReadPropertyInfo H E) levels,
            it.FindProperty H E fuel Struct Info.Name = some Info)) := by
  constructor
  · intro H E it Struct levels fuel hinit hs hf
    have hcore : ∀ name : String,
        it.FindProperty H E fuel Struct name =
          (yieldList (it.ReadPropertyInfo H E) levels).find?
            (fun g => decide (g.Name = name)) := by
      intro name
      rw [FUPropertyIterator.FindProperty, FUPropertyIterator.ForEachProperty]
      exact findChain_eq_find? H it.shape (it.ReadPropertyInfo H E) hinit hs fuel hf name
    refine ⟨fun Info _ => hcore Info.Name, fun hnd Info hmem => ?_⟩
    rw [hcore Info.Name]
    exact find?_name_eq_self_of_nodup _ hnd Info hmem
  · intro H E it Struct levels fuel hinit hs hf
    have hcore : ∀ name : String,
        it.FindProperty H E fuel Struct name =
          (yieldList (it.ReadPropertyInfo H E) levels).find?
            (fun g => decide (g.Name = name)) := by
      intro name
      rw [FFFieldPropertyIterator.FindProperty, FFFieldPropertyIterator.ForEachProperty]
      exact findChain_eq_find? H it.shape (it.ReadPropertyInfo H E) hinit hs fuel hf name
    refine ⟨fun Info _ => hcore Info.Name, fun hnd Info hmem => ?_⟩
    rw [hcore Info.Name]
    exact find?_name_eq_self_of_nodup _ hnd Info hmem

/-- C6 counterexample: on the two-field heap `capHeap 2` both fields are
named `"F"` (the engine oracle names every object `"F"`), `ForEachProperty`
yields both descriptors, yet `FindProperty` on the *second* yielded
descriptor's name returns the *first* descriptor, which differs from it (the
`PropertyPtr` fields are `24` versus `16`) — so the exact round trip of the
original claim fails. -/
theorem findProperty_roundtrip_counterexample :
    capIterU.ForEachProperty (capHeap 2) capOracle collectCallback 5 2 true [] =
      some ([capIterU.ReadPropertyInfo (capHeap 2) capOracle 24,
        capIterU.ReadPropertyInfo (capHeap 2) capOracle 16], true) ∧
    capIterU.FindProperty (capHeap 2) capOracle 5 2
        (capIterU.ReadPropertyInfo (capHeap 2) capOracle 16).Name =
      some (capIterU.ReadPropertyInfo (capHeap 2) capOracle 24) ∧
    capIterU.ReadPropertyInfo (capHeap 2) capOracle 24 ≠
      capIterU.ReadPropertyInfo (capHeap 2) capOracle 16 :=
  ⟨by decide, by decide, by decide⟩

/-- C6 witness: on the one-field heap `capHeap 1` the yielded names are
trivially distinct and the round trip holds: finding the single field's name
returns exactly its descriptor. -/
theorem findProperty_roundtrip_witness :
    capIterU.FindProperty (capHeap 1) capOracle 4 2
        (capIterU.ReadPropertyInfo (capHeap 1) capOracle 16).Name =
      some (capIterU.ReadPropertyInfo (capHeap 1) capOracle 16) :=
  (findProperty_roundtrip.1 (capHeap 1) capOracle capIterU 2 [(2, capChainList 1)] 4
      rfl (capLevels 0) (by decide)).2 (by decide)
    (capIterU.ReadPropertyInfo (capHeap 1) capOracle 16) (by decide)

/-! ## ProcessEvent dispatcher (`src/Engine/Events/ProcessEventDispatcher.cpp`)

The dispatcher state is the member set of `FProcessEventDispatcher`; the
per-function parameter cache (`m_FunctionCache`, write-once derived data) and
the engine name lookups are abstracted into an environment oracle, and
`ParseParameters`' net effect on the context is the oracle's parameter list
and return-value flag.  `OnProcessEvent` additionally reports which handler
callbacks ran (in order) and whether parameter parsing was performed — both
directly observable behaviours of the C++ code. -/

/-- `FParsedParameter` (the `float`/`double` union members are omitted:
no modelled code reads them, and the parameter list itself comes from the
environment oracle). -/
structure FParsedParameter where
  Name : String
  PType : EPropertyType
  Offset : Int
  Size : Int
  Flags : Nat
  BoolValue : Bool
  IntValue : Int
  Int64Value : Int
  PointerValue : Nat
  StringValue : String

/-- `FProcessEventContext` (the `Timestamp` double is omitted: never read). -/
structure FProcessEventContext where
  Object : Nat
  Function : Nat
  Parameters : Nat
  ObjectName : String
  ObjectClassName : String
  FunctionName : String
  Params : List FParsedParameter
  bIsRPC : Bool
  bIsMulticast : Bool
  bHasReturnValue : Bool

/-- `hay` starts with `pat` (C++ `hay.find(pat) == 0`). -/
def listStartsWith : List Char → List Char → Bool
  | _, [] => true
  | [], _ :: _ => false
  | a :: as, b :: bs => decide (a = b) && listStartsWith as bs

/-- `pat` occurs inside `hay` (C++ `hay.find(pat) != npos`). -/
def listContainsSub : List Char → List Char → Bool
  | [], pat => pat.isEmpty
  | a :: as, pat => listStartsWith (a :: as) pat || listContainsSub as pat

/-- String wrapper for `listStartsWith`. -/
def strStartsWith (hay pat : String) : Bool :=
  listStartsWith hay.data pat.data

/-- String wrapper for `listContainsSub`. -/
def strContainsSub (hay pat : String) : Bool :=
  listContainsSub hay.data pat.data

/-- `FEventFilter` (`FunctionNamePfx` is the C++ third member, the
function-name-starts-with filter). -/
structure FEventFilter where
  ObjectClassFilter : String
  FunctionNameFilter : String
  FunctionNamePfx : String
  bServerOnly : Bool
  bClientOnly : Bool

/-- `FEventFilter::Matches`: object-class substring, exact function name,
function-name start, and the remote-only/local-only gates, in C++ order. -/
def FEventFilter.Matches (F : FEventFilter) (Context : FProcessEventContext) : Bool :=
  if F.ObjectClassFilter ≠ "" ∧ strContainsSub Context.ObjectClassName F.ObjectClassFilter = false then
    false
  else if F.FunctionNameFilter ≠ "" ∧ Context.FunctionName ≠ F.FunctionNameFilter then
    false
  else if F.FunctionNamePfx ≠ "" ∧ strStartsWith Context.FunctionName F.FunctionNamePfx = false then
    false
  else if F.bServerOnly = true ∧ Context.bIsRPC = false then
    false
  else if F.bClientOnly = true ∧ Context.bIsRPC = true then
    false
  else
    true

/-- `FRegisteredHandler`. -/
structure FRegisteredHandler where
  HandlerId : Nat
  Name : String
  Filter : FEventFilter
  Handler : FProcessEventContext → Bool
  Priority : Int
  bEnabled : Bool

/-- The member state of `FProcessEventDispatcher` (the `m_FunctionCache`
map is abstracted into the environment oracle). -/
structure FProcessEventDispatcher where
  m_bInitialized : Bool
  m_NextHandlerId : Nat
  m_Handlers : List FRegisteredHandler
  m_bHandlersDirty : Bool
  m_TotalEventsProcessed : Nat
  m_TotalEventsHandled : Nat
  m_TotalEventsBlocked : Nat

/-- The default-constructed dispatcher. -/
def FProcessEventDispatcher.construct : FProcessEventDispatcher :=
  ⟨false, 1, [], false, 0, 0, 0⟩

/-- External collaborators of `OnProcessEvent`: the engine-core name lookups
used to build the context header, and the net result of parameter parsing
(`GetFunctionInfo` through the property iterator plus `ReadParameterValue`,
including the per-function cache): the parsed parameter list and the
has-return-value flag for a `(Function, Parameters)` pair. -/
structure FDispatchEnv where
  GetObjectName : Nat → String
  GetObjectClassName : Nat → String
  parseParams : Nat → Nat → List FParsedParameter × Bool

/-- Insert one handler into a priority-descending list (used to model
`std::sort` with comparator `A.Priority > B.Priority`; `std::sort` promises
exactly a priority-descending permutation, with the order among equal
priorities unspecified — the claims under verification use distinct
priorities, where every descending permutation coincides). -/
def insertByPriority (h : FRegisteredHandler) :
    List FRegisteredHandler → List FRegisteredHandler
  | [] => [h]
  | x :: xs => if x.Priority < h.Priority then h :: x :: xs else x :: insertByPriority h xs

/-- `FProcessEventDispatcher::SortHandlers` (on the handler list; the C++
also clears `m_bHandlersDirty`, done at the call site below). -/
def SortHandlers (l : List FRegisteredHandler) : List FRegisteredHandler :=
  l.foldr insertByPriority []

/-- The context-header construction at the top of `OnProcessEvent`: names
via the engine core, RPC flag from a `Server`/`Client` function-name start,
multicast flag from a `Multicast` substring; parameters not yet parsed. -/
def buildContext (env : FDispatchEnv) (Object Function Parameters : Nat) :
    FProcessEventContext :=
  { Object := Object
    Function := Function
    Parameters := Parameters
    ObjectName := env.GetObjectName Object
    ObjectClassName := env.GetObjectClassName Object
    FunctionName := env.GetObjectName Function
    Params := []
    bIsRPC := strStartsWith (env.GetObjectName Function) "Server"
      || strStartsWith (env.GetObjectName Function) "Client"
    bIsMulticast := strContainsSub (env.GetObjectName Function) "Multicast"
    bHasReturnValue := false }

/-- `FProcessEventDispatcher::ParseParameters`: a null function or parameter
block leaves the context untouched (`return false`); otherwise the context
receives the parsed parameter list and return-value flag. -/
def ParseParameters (env : FDispatchEnv) (Function Parameters : Nat)
    (Context : FProcessEventContext) : FProcessEventContext :=
  if Function = 0 ∨ Parameters = 0 then Context
  else
    { Context with
        Params := (env.parseParams Function Parameters).1
        bHasReturnValue := (env.parseParams Function Parameters).2 }

/-- The per-call outcome of the dispatch loop: the allow/suppress verdict,
the increments of the handled and blocked counters, and the handler ids
whose callbacks ran, in call order. -/
structure FDispatchOutcome where
  bAllowExecution : Bool
  handledCount : Nat
  blockedCount : Nat
  invoked : List Nat

/-- The handler loop at the bottom of `OnProcessEvent`: skip disabled and
non-matching handlers; each invoked handler first bumps the handled counter;
a `false` return suppresses execution, bumps the blocked counter and breaks. -/
def dispatchHandlers (Context : FProcessEventContext) :
    List FRegisteredHandler → FDispatchOutcome
  | [] => ⟨true, 0, 0, []⟩
  | h :: rest =>
    if h.bEnabled = false then dispatchHandlers Context rest
    else if h.Filter.Matches Context = false then dispatchHandlers Context rest
    else if h.Handler Context then
      let r := dispatchHandlers Context rest
      ⟨r.bAllowExecution, r.handledCount + 1, r.blockedCount, h.HandlerId :: r.invoked⟩
    else ⟨false, 1, 1, [h.HandlerId]⟩

/-- The observable result of one `OnProcessEvent` call: its boolean return
(`true` = allow original execution), the dispatcher state afterwards, whether
`ParseParameters` ran, and which handler callbacks ran. -/
structure FProcessEventResult where
  bAllowExecution : Bool
  state : FProcessEventDispatcher
  bParsedParameters : Bool
  invoked : List Nat

/-- `FProcessEventDispatcher::OnProcessEvent`. -/
def OnProcessEvent (env : FDispatchEnv) (d : FProcessEventDispatcher)
    (Object Function Parameters : Nat) : FProcessEventResult :=
  if d.m_bInitialized = false then ⟨true, d, false, []⟩
  else
    let d1 := { d with m_TotalEventsProcessed := d.m_TotalEventsProcessed + 1 }
    let d2 :=
      if d1.m_bHandlersDirty then
        { d1 with m_Handlers := SortHandlers d1.m_Handlers, m_bHandlersDirty := false }
      else d1
    if d2.m_Handlers.isEmpty then ⟨true, d2, false, []⟩
    else
      let Context0 := buildContext env Object Function Parameters
      let bNeedsParsing :=
        d2.m_Handlers.any fun h => h.bEnabled && h.Filter.Matches Context0
      let Context :=
        if bNeedsParsing then ParseParameters env Function Parameters Context0
        else Context0
      let outcome := dispatchHandlers Context d2.m_Handlers
      ⟨outcome.bAllowExecution,
        { d2 with
            m_TotalEventsHandled := d2.m_TotalEventsHandled + outcome.handledCount
            m_TotalEventsBlocked := d2.m_TotalEventsBlocked + outcome.blockedCount },
        bNeedsParsing,
        outcome.invoked⟩

/-- `FProcessEventDispatcher::Initialize` (the property-iterator
initialization is external; note it does not reset `m_NextHandlerId` or
`m_bHandlersDirty`). -/
def Initialize (d : FProcessEventDispatcher) : FProcessEventDispatcher :=
  if d.m_bInitialized then d
  else
    { d with
        m_Handlers := []
        m_TotalEventsProcessed := 0
        m_TotalEventsHandled := 0
        m_TotalEventsBlocked := 0
        m_bInitialized := true }

/-- `FProcessEventDispatcher::RegisterHandler` (the C++ null-`std::function`
guard is not representable: Lean function values are total); returns the new
handler id and marks the handler list dirty. -/
def RegisterHandler (d : FProcessEventDispatcher) (Name : String)
    (Filter : FEventFilter) (Handler : FProcessEventContext → Bool)
    (Priority : Int) : Nat × FProcessEventDispatcher :=
  let Registration : FRegisteredHandler :=
    ⟨d.m_NextHandlerId, Name, Filter, Handler, Priority, true⟩
  (Registration.HandlerId,
    { d with
        m_NextHandlerId := d.m_NextHandlerId + 1
        m_Handlers := d.m_Handlers ++ [Registration]
        m_bHandlersDirty := true })

/-- `FProcessEventDispatcher::UnregisterHandler` (`remove_if` + `erase`;
note it does not touch `m_bHandlersDirty`). -/
def UnregisterHandler (d : FProcessEventDispatcher) (HandlerId : Nat) :
    FProcessEventDispatcher :=
  { d with m_Handlers := d.m_Handlers.filter fun h => h.HandlerId ≠ HandlerId }

/-- Filter matching only reads the context header (class name, function
name, RPC flag), so parameter parsing never changes it. -/
theorem matches_parseParameters (F : FEventFilter) (env : FDispatchEnv)
    (Function Parameters : Nat) (Context : FProcessEventContext) :
    F.Matches (ParseParameters env Function Parameters Context) = F.Matches Context := by
  unfold ParseParameters
  split <;> rfl

/-- Filter matching through the parse-if-needed context of `OnProcessEvent`. -/
theorem matches_dispatchContext (F : FEventFilter) (env : FDispatchEnv)
    (Function Parameters : Nat) (Context : FProcessEventContext) (c : Prop)
    [Decidable c] :
    F.Matches (if c then ParseParameters env Function Parameters Context else Context) =
      F.Matches Context := by
  split <;> simp [matches_parseParameters]

/-- Membership is preserved by priority insertion. -/
theorem mem_insertByPriority (a h : FRegisteredHandler) :
    ∀ l : List FRegisteredHandler, a ∈ insertByPriority h l ↔ a = h ∨ a ∈ l := by
  intro l
  induction l with
  | nil => simp [insertByPriority]
  | cons x xs ih =>
    by_cases hp : x.Priority < h.Priority
    · simp [insertByPriority, hp, List.mem_cons]
    · simp only [insertByPriority, if_neg hp, List.mem_cons, ih]
      tauto

/-- Sorting the handler list preserves membership. -/
theorem mem_sortHandlers (a : FRegisteredHandler) :
    ∀ l : List FRegisteredHandler, a ∈ SortHandlers l ↔ a ∈ l := by
  intro l
  induction l with
  | nil => simp [SortHandlers]
  | cons x xs ih =>
    have hx : SortHandlers (x :: xs) = insertByPriority x (SortHandlers xs) := rfl
    rw [hx, mem_insertByPriority]
    simp [ih, List.mem_cons]

/-- Priority insertion grows the list by one. -/
theorem length_insertByPriority (h : FRegisteredHandler) :
    ∀ l : List FRegisteredHandler, (insertByPriority h l).length = l.length + 1 := by
  intro l
  induction l with
  | nil => rfl
  | cons x xs ih =>
    by_cases hp : x.Priority < h.Priority
    · simp [insertByPriority, hp]
    · simp [insertByPriority, hp, ih]

/-- Sorting the handler list preserves its length. -/
theorem length_sortHandlers :
    ∀ l : List FRegisteredHandler, (SortHandlers l).length = l.length := by
  intro l
  induction l with
  | nil => rfl
  | cons x xs ih =>
    have hx : SortHandlers (x :: xs) = insertByPriority x (SortHandlers xs) := rfl
    rw [hx, length_insertByPriority, ih]
    rfl

/-- Sorting the handler list preserves emptiness. -/
theorem isEmpty_sortHandlers (l : List FRegisteredHandler) :
    (SortHandlers l).isEmpty = l.isEmpty := by
  cases l with
  | nil => rfl
  | cons x xs =>
    have hlen : (SortHandlers (x :: xs)).length = xs.length + 1 :=
      length_sortHandlers (x :: xs)
    cases hs : SortHandlers (x :: xs) with
    | nil => rw [hs] at hlen; simp at hlen
    | cons a as => rfl

/-- The handled-counter increment of the dispatch loop equals the number of
handler callbacks invoked. -/
theorem dispatchHandlers_handled_eq_invoked (Context : FProcessEventContext) :
    ∀ l : List FRegisteredHandler,
      (dispatchHandlers Context l).handledCount =
        (dispatchHandlers Context l).invoked.length := by
  intro l
  induction l with
  | nil => rfl
  | cons h rest ih =>
    by_cases he : h.bEnabled = false
    · simp [dispatchHandlers, he, ih]
    · by_cases hm : h.Filter.Matches Context = false
      · simp [dispatchHandlers, he, hm, ih]
      · by_cases hh : h.Handler Context
        · simp [dispatchHandlers, he, hm, hh, ih]
        · simp [dispatchHandlers, he, hm, hh]

/-- The dispatch loop invokes at least one handler exactly when some handler
in the list is enabled and matches the context. -/
theorem dispatchHandlers_invoked_iff (Context : FProcessEventContext) :
    ∀ l : List FRegisteredHandler,
      (dispatchHandlers Context l).invoked ≠ [] ↔
        ∃ h ∈ l, h.bEnabled = true ∧ h.Filter.Matches Context = true := by
  intro l
  induction l with
  | nil => simp [dispatchHandlers]
  | cons h rest ih =>
    by_cases he : h.bEnabled = false
    · simp [dispatchHandlers, he, ih, List.mem_cons]
    · have he' : h.bEnabled = true := by simpa using he
      by_cases hm : h.Filter.Matches Context = false
      · simp [dispatchHandlers, he, hm, ih, List.mem_cons]
      · have hm' : h.Filter.Matches Context = true := by simpa using hm
        by_cases hh : h.Handler Context
        · simp [dispatchHandlers, he, hm, hh]
        · simp [dispatchHandlers, he, hm, hh]

/-- C8 (amended): on every `OnProcessEvent` call, the handled counter
increases by exactly the number of handler callbacks invoked — each enabled
matching observer up to and including the first that vetoes — so it
increases (by at least one) exactly when some enabled registered observer's
filter matches the call, stays unchanged when none does, and never
decreases. -/
theorem handledCounter_spec :
    ∀ (env : FDispatchEnv) (d : FProcessEventDispatcher)
      (Object Function Parameters : Nat),
      (OnProcessEvent env d Object Function Parameters).state.m_TotalEventsHandled =
        d.m_TotalEventsHandled +
          (OnProcessEvent env d Object Function Parameters).invoked.length ∧
      d.m_TotalEventsHandled ≤
        (OnProcessEvent env d Object Function Parameters).state.m_TotalEventsHandled ∧
      (d.m_bInitialized = true →
        ((OnProcessEvent env d Object Function Parameters).invoked ≠ [] ↔
          ∃ h ∈ d.m_Handlers, h.bEnabled = true ∧
            h.Filter.Matches (buildContext env Object Function Parameters) = true)) := by
  intro env d Object Function Parameters
  obtain ⟨binit, nid, hl, dirty, p, hc, bc⟩ := d
  cases binit with
  | false =>
    refine ⟨by simp [OnProcessEvent], by simp [OnProcessEvent], fun h => absurd h (by simp)⟩
  | true =>
    cases dirty with
    | false =>
      cases hl with
      | nil =>
        refine ⟨by simp [OnProcessEvent], by simp [OnProcessEvent], fun _ => by simp [OnProcessEvent]⟩
      | cons x xs =>
        refine ⟨?_, ?_, fun _ => ?_⟩
        · simp [OnProcessEvent, dispatchHandlers_handled_eq_invoked]
        · simp [OnProcessEvent]
        · simp only [OnProcessEvent]
          simp [dispatchHandlers_invoked_iff, matches_dispatchContext]
    | true =>
      cases hl with
      | nil =>
        refine ⟨by simp [OnProcessEvent, SortHandlers], by simp [OnProcessEvent, SortHandlers],
          fun _ => by simp [OnProcessEvent, SortHandlers]⟩
      | cons x xs =>
        have hne : (SortHandlers (x :: xs)).isEmpty = false := isEmpty_sortHandlers (x :: xs)
        refine ⟨?_, ?_, fun _ => ?_⟩
        · simp [OnProcessEvent, hne, dispatchHandlers_handled_eq_invoked]
        · simp [OnProcessEvent, hne]
        · simp only [OnProcessEvent]
          simp [hne, dispatchHandlers_invoked_iff, matches_dispatchContext, mem_sortHandlers]

/-- The all-pass event filter (all fields at their defaults). -/
def passFilter : FEventFilter := ⟨"", "", "", false, false⟩

/-- A concrete dispatch environment for counterexamples and witnesses. -/
def cexEnv : FDispatchEnv :=
  ⟨fun _ => "Fn", fun _ => "Cls", fun _ _ => ([], false)⟩

/-- An enabled all-pass observer with id `1` that always continues. -/
def cexHandlerA : FRegisteredHandler := ⟨1, "obsA", passFilter, fun _ => true, 0, true⟩

/-- An enabled all-pass observer with id `2` that always continues. -/
def cexHandlerB : FRegisteredHandler := ⟨2, "obsB", passFilter, fun _ => true, 0, true⟩

/-- An initialized dispatcher carrying the two observers, all counters `0`. -/
def cexDispatcher : FProcessEventDispatcher :=
  ⟨true, 3, [cexHandlerA, cexHandlerB], false, 0, 0, 0⟩

/-- C8 counterexample: with two enabled matching observers that both
continue, one call raises the handled counter from `0` to `2` — not by
exactly one as claimed — because the C++ increments `m_TotalEventsHandled`
once per invoked handler, not once per handled call. -/
theorem handledCounter_claim_counterexample :
    cexHandlerA.bEnabled = true ∧
    cexHandlerA.Filter.Matches (buildContext cexEnv 1 2 3) = true ∧
    cexHandlerA ∈ cexDispatcher.m_Handlers ∧
    (OnProcessEvent cexEnv cexDispatcher 1 2 3).state.m_TotalEventsHandled = 2 ∧
    cexDispatcher.m_TotalEventsHandled = 0 ∧
    (OnProcessEvent cexEnv cexDispatcher 1 2 3).state.m_TotalEventsHandled ≠
      cexDispatcher.m_TotalEventsHandled + 1 :=
  ⟨rfl, rfl, List.Mem.head _, rfl, rfl, by decide⟩

/-- A single-observer dispatcher for the C8 witness. -/
def wDispatcherC8 : FProcessEventDispatcher :=
  ⟨true, 2, [cexHandlerA], false, 4, 5, 6⟩

/-- C8 witness: on the single-observer dispatcher the amended law holds with
the hypotheses discharged at a concrete input. -/
theorem handledCounter_spec_witness :
    (OnProcessEvent cexEnv wDispatcherC8 1 2 3).state.m_TotalEventsHandled =
      wDispatcherC8.m_TotalEventsHandled +
        (OnProcessEvent cexEnv wDispatcherC8 1 2 3).invoked.length ∧
    ((OnProcessEvent cexEnv wDispatcherC8 1 2 3).invoked ≠ [] ↔
      ∃ h ∈ wDispatcherC8.m_Handlers, h.bEnabled = true ∧
        h.Filter.Matches (buildContext cexEnv 1 2 3) = true) :=
  ⟨(handledCounter_spec cexEnv wDispatcherC8 1 2 3).1,
    (handledCounter_spec cexEnv wDispatcherC8 1 2 3).2.2 rfl⟩

/-- C10 (amended): an `OnProcessEvent` call on an uninitialized dispatcher
returns `true` (allow), leaves the dispatcher state bit-identical, invokes no
handler and never parses parameters; on an initialized dispatcher with no
registered handlers it returns `true`, increments the processed counter by
one and clears the handlers-dirty flag — the one state effect beyond the
processed counter, reachable because `UnregisterHandler` leaves the flag set
— changing nothing else, invoking no handler and never parsing parameters. -/
theorem onProcessEvent_early_exits :
    ∀ (env : FDispatchEnv) (d : FProcessEventDispatcher)
      (Object Function Parameters : Nat),
      (d.m_bInitialized = false →
        OnProcessEvent env d Object Function Parameters = ⟨true, d, false, []⟩) ∧
      (d.m_bInitialized = true → d.m_Handlers = [] →
        OnProcessEvent env d Object Function Parameters =
          ⟨true,
            { d with
                m_TotalEventsProcessed := d.m_TotalEventsProcessed + 1
                m_bHandlersDirty := false },
            false, []⟩) := by
  intro env d Object Function Parameters
  obtain ⟨binit, nid, hl, dirty, p, hc, bc⟩ := d
  constructor
  · intro h
    subst h
    simp [OnProcessEvent]
  · intro h hl0
    subst h
    subst hl0
    cases dirty <;> simp [OnProcessEvent, SortHandlers]

/-- The dispatcher state after construct, `Initialize`, registering one
observer and unregistering it again: no handlers, but the handlers-dirty
flag is still set. -/
def c10State : FProcessEventDispatcher :=
  UnregisterHandler
    (RegisterHandler (Initialize FProcessEventDispatcher.construct) "obs" passFilter
      (fun _ => true) 7).2
    (RegisterHandler (Initialize FProcessEventDispatcher.construct) "obs" passFilter
      (fun _ => true) 7).1

/-- C10 counterexample: in the reachable initialized no-handler state
`c10State` (register then unregister), `OnProcessEvent` changes a state field
other than the processed counter: it clears `m_bHandlersDirty`, so the
post-state differs from the claimed "only the processed counter changed"
state. -/
theorem onProcessEvent_early_exits_counterexample :
    c10State.m_bInitialized = true ∧
    c10State.m_Handlers = [] ∧
    c10State.m_bHandlersDirty = true ∧
    (OnProcessEvent cexEnv c10State 1 2 3).state.m_bHandlersDirty = false ∧
    (OnProcessEvent cexEnv c10State 1 2 3).state.m_TotalEventsProcessed =
      c10State.m_TotalEventsProcessed + 1 ∧
    (OnProcessEvent cexEnv c10State 1 2 3).state ≠
      { c10State with
          m_TotalEventsProcessed := c10State.m_TotalEventsProcessed + 1 } := by
  refine ⟨rfl, rfl, rfl, rfl, rfl, fun he => ?_⟩
  have h2 := congrArg FProcessEventDispatcher.m_bHandlersDirty he
  exact Bool.noConfusion (show (false : Bool) = true from h2)

/-- C10 witness: the uninitialized default-constructed dispatcher is left
untouched, and an initialized empty dispatcher only gains one processed
event (its dirty flag was already clear). -/
theorem onProcessEvent_early_exits_witness :
    OnProcessEvent cexEnv FProcessEventDispatcher.construct 1 2 3 =
      ⟨true, FProcessEventDispatcher.construct, false, []⟩ ∧
    OnProcessEvent cexEnv (Initialize FProcessEventDispatcher.construct) 1 2 3 =
      ⟨true,
        { Initialize FProcessEventDispatcher.construct with
            m_TotalEventsProcessed :=
              (Initialize FProcessEventDispatcher.construct).m_TotalEventsProcessed + 1
            m_bHandlersDirty := false },
        false, []⟩ :=
  ⟨(onProcessEvent_early_exits cexEnv FProcessEventDispatcher.construct 1 2 3).1 rfl,
    (onProcessEvent_early_exits cexEnv (Initialize FProcessEventDispatcher.construct)
      1 2 3).2 rfl rfl⟩

/-- C2: an initialized dispatcher carrying exactly two enabled registered
observers with priorities `10` and `5` whose filters both match the call —
in either registration order — invokes the priority-`10` observer first: if
it continues, the callbacks run priority-`10`-then-priority-`5`; if it vetoes
("stop"), the priority-`5` observer is never invoked, `OnProcessEvent`
returns `false` (suppress original execution), and the suppressed-calls
counter increases by exactly one.  (Handler ids record invocation order: the
first registration receives id `m_NextHandlerId`, the second id
`m_NextHandlerId + 1`.) -/
theorem dispatcher_priority_dispatch_and_veto :
    ∀ (env : FDispatchEnv) (d0 : FProcessEventDispatcher)
      (Object Function Parameters : Nat) (nA nB : String) (fA fB : FEventFilter)
      (kA kB : FProcessEventContext → Bool),
      d0.m_bInitialized = true →
      d0.m_Handlers = [] →
      fA.Matches (buildContext env Object Function Parameters) = true →
      fB.Matches (buildContext env Object Function Parameters) = true →
      ((kA (ParseParameters env Function Parameters
            (buildContext env Object Function Parameters)) = true →
          (OnProcessEvent env
              (RegisterHandler (RegisterHandler d0 nA fA kA 10).2 nB fB kB 5).2
              Object Function Parameters).invoked =
            [d0.m_NextHandlerId, d0.m_NextHandlerId + 1]) ∧
        (kA (ParseParameters env Function Parameters
            (buildContext env Object Function Parameters)) = false →
          (OnProcessEvent env
              (RegisterHandler (RegisterHandler d0 nA fA kA 10).2 nB fB kB 5).2
              Object Function Parameters).invoked = [d0.m_NextHandlerId] ∧
          (OnProcessEvent env
              (RegisterHandler (RegisterHandler d0 nA fA kA 10).2 nB fB kB 5).2
              Object Function Parameters).bAllowExecution = false ∧
          (OnProcessEvent env
              (RegisterHandler (RegisterHandler d0 nA fA kA 10).2 nB fB kB 5).2
              Object Function Parameters).state.m_TotalEventsBlocked =
            d0.m_TotalEventsBlocked + 1 ∧
          (OnProcessEvent env
              (RegisterHandler (RegisterHandler d0 nA fA kA 10).2 nB fB kB 5).2
              Object Function Parameters).state.m_TotalEventsHandled =
            d0.m_TotalEventsHandled + 1)) ∧
      ((kA (ParseParameters env Function Parameters
            (buildContext env Object Function Parameters)) = true →
          (OnProcessEvent env
              (RegisterHandler (RegisterHandler d0 nB fB kB 5).2 nA fA kA 10).2
              Object Function Parameters).invoked =
            [d0.m_NextHandlerId + 1, d0.m_NextHandlerId]) ∧
        (kA (ParseParameters env Function Parameters
            (buildContext env Object Function Parameters)) = false →
          (OnProcessEvent env
              (RegisterHandler (RegisterHandler d0 nB fB kB 5).2 nA fA kA 10).2
              Object Function Parameters).invoked = [d0.m_NextHandlerId + 1] ∧
          (OnProcessEvent env
              (RegisterHandler (RegisterHandler d0 nB fB kB 5).2 nA fA kA 10).2
              Object Function Parameters).bAllowExecution = false ∧
          (OnProcessEvent env
              (RegisterHandler (RegisterHandler d0 nB fB kB 5).2 nA fA kA 10).2
              Object Function Parameters).state.m_TotalEventsBlocked =
            d0.m_TotalEventsBlocked + 1 ∧
          (OnProcessEvent env
              (RegisterHandler (RegisterHandler d0 nB fB kB 5).2 nA fA kA 10).2
              Object Function Parameters).state.m_TotalEventsHandled =
            d0.m_TotalEventsHandled + 1)) := by
  intro env d0 Object Function Parameters nA nB fA fB kA kB h1 h2 hA hB
  have hlt : ((5 : Int) < 10) = True := by simp
  have hnlt : ((10 : Int) < 5) = False := by simp
  refine ⟨⟨?_, ?_⟩, ⟨?_, ?_⟩⟩
  · intro hkA
    by_cases hkB : kB (ParseParameters env Function Parameters
        (buildContext env Object Function Parameters)) = true
    · simp [OnProcessEvent, RegisterHandler, SortHandlers, insertByPriority,
        dispatchHandlers, matches_parseParameters, h1, h2, hA, hB, hkA, hkB, hlt, hnlt]
    · simp [OnProcessEvent, RegisterHandler, SortHandlers, insertByPriority,
        dispatchHandlers, matches_parseParameters, h1, h2, hA, hB, hkA, hkB, hlt, hnlt]
  · intro hkA
    simp [OnProcessEvent, RegisterHandler, SortHandlers, insertByPriority,
      dispatchHandlers, matches_parseParameters, h1, h2, hA, hB, hkA, hlt, hnlt]
  · intro hkA
    by_cases hkB : kB (ParseParameters env Function Parameters
        (buildContext env Object Function Parameters)) = true
    · simp [OnProcessEvent, RegisterHandler, SortHandlers, insertByPriority,
        dispatchHandlers, matches_parseParameters, h1, h2, hA, hB, hkA, hkB, hlt, hnlt]
    · simp [OnProcessEvent, RegisterHandler, SortHandlers, insertByPriority,
        dispatchHandlers, matches_parseParameters, h1, h2, hA, hB, hkA, hkB, hlt, hnlt]
  · intro hkA
    simp [OnProcessEvent, RegisterHandler, SortHandlers, insertByPriority,
      dispatchHandlers, matches_parseParameters, h1, h2, hA, hB, hkA, hlt, hnlt]

/-- The freshly initialized dispatcher used in the C2 witness. -/
def wDispatcherC2 : FProcessEventDispatcher :=
  Initialize FProcessEventDispatcher.construct

/-- C2 witness: registering a vetoing priority-`10` observer and a
priority-`5` observer (in that order, ids `1` and `2`) on the all-pass
filter: only the priority-`10` observer runs, execution is suppressed, and
the blocked and handled counters each rise from `0` to `1`. -/
theorem dispatcher_priority_dispatch_and_veto_witness :
    (OnProcessEvent cexEnv
        (RegisterHandler (RegisterHandler wDispatcherC2 "high" passFilter
          (fun _ => false) 10).2 "low" passFilter (fun _ => true) 5).2
        1 2 3).invoked = [wDispatcherC2.m_NextHandlerId] ∧
    (OnProcessEvent cexEnv
        (RegisterHandler (RegisterHandler wDispatcherC2 "high" passFilter
          (fun _ => false) 10).2 "low" passFilter (fun _ => true) 5).2
        1 2 3).bAllowExecution = false ∧
    (OnProcessEvent cexEnv
        (RegisterHandler (RegisterHandler wDispatcherC2 "high" passFilter
          (fun _ => false) 10).2 "low" passFilter (fun _ => true) 5).2
        1 2 3).state.m_TotalEventsBlocked = wDispatcherC2.m_TotalEventsBlocked + 1 ∧
    (OnProcessEvent cexEnv
        (RegisterHandler (RegisterHandler wDispatcherC2 "high" passFilter
          (fun _ => false) 10).2 "low" passFilter (fun _ => true) 5).2
        1 2 3).state.m_TotalEventsHandled = wDispatcherC2.m_TotalEventsHandled + 1 :=
  (dispatcher_priority_dispatch_and_veto cexEnv wDispatcherC2 1 2 3 "high" "low"
    passFilter passFilter (fun _ => false) (fun _ => true) rfl rfl rfl rfl).1.2 rfl

end USS
